import Mathlib

/-!
Verification of the AcmeLabs AWS operator scripts (Python/boto3) against
their natural-language specification.

The provider (AWS EC2) is modelled as an explicit state (`Ec2State`): lists of
VPCs, subnets, route tables and internet gateways, plus a counter used to mint
fresh provider-assigned identifiers.  Each Python function that talks to boto3
is embedded as a pure Lean function over this state; a `ClientError` raised by
a call site is modelled by an explicit `Option String` fault parameter (the
exception message).  Every provider request a script issues is recorded in a
trace of `ApiCall` events, so ordering and "no call was issued" properties can
be stated directly.
-/

/-- Tags are key-value pairs; AWS tag filters are exact-match per value. -/
def hasTag (tags : List (String × String)) (k v : String) : Bool :=
  tags.any (fun t => t.1 == k && t.2 == v)

/-- A VPC as seen through describe_vpcs/create_vpc. -/
structure Vpc where
  vpcId : String
  cidrBlock : String
  tags : List (String × String)
deriving Repr, DecidableEq

/-- A subnet as seen through describe_subnets/create_subnet. -/
structure Subnet where
  subnetId : String
  cidrBlock : String
  availabilityZone : String
  vpcId : String
  tags : List (String × String)
deriving Repr, DecidableEq

/-- A route-table association (describe_route_tables `Associations` entry). -/
structure RtAssociation where
  associationId : String
  main : Bool
  subnetId : String
deriving Repr, DecidableEq

/-- A route table with its routes (destination CIDR blocks) and associations. -/
structure RouteTable where
  routeTableId : String
  vpcId : String
  tags : List (String × String)
  routes : List String
  associations : List RtAssociation
deriving Repr, DecidableEq

/-- An internet gateway, attached to at most one VPC. -/
structure InternetGateway where
  igwId : String
  tags : List (String × String)
  attachedVpc : Option String
deriving Repr, DecidableEq

/-- The provider's resource graph, plus a counter minting fresh IDs. -/
structure Ec2State where
  vpcs : List Vpc
  subnets : List Subnet
  routeTables : List RouteTable
  igws : List InternetGateway
  nextId : Nat
deriving Repr, DecidableEq

/-- Provider requests issued by the scripts, recorded in traces. -/
inductive ApiCall where
  | describeVpcs
  | createVpc (cidr name env : String)
  | describeSubnets
  | createSubnet (cidr az name : String)
  | describeRouteTables
  | createRouteTable
  | associateRouteTable (subnetId rtbId : String)
  | disassociateRouteTable (assocId : String)
  | describeInternetGateways
  | createInternetGateway
  | attachInternetGateway (igwId vpcId : String)
  | detachInternetGateway (igwId vpcId : String)
  | deleteInternetGateway (igwId : String)
  | createRoute (dest igwId rtbId : String)
  | deleteRoute (rtbId dest : String)
  | deleteRouteTable (rtbId : String)
  | deleteSubnet (subnetId : String)
  | deleteVpc (vpcId : String)
deriving Repr, DecidableEq

/-- Per-call-kind fault injection: `some msg` means every provider call of that
kind raises `ClientError(msg)`. -/
structure Faults where
  fDescribeVpcs : Option String
  fDescribeSubnets : Option String
  fDescribeRouteTables : Option String
  fDescribeInternetGateways : Option String
  fDeleteRoute : Option String
  fDetachInternetGateway : Option String
  fDeleteInternetGateway : Option String
  fDisassociateRouteTable : Option String
  fDeleteRouteTable : Option String
  fDeleteSubnet : Option String
  fDeleteVpc : Option String
deriving Repr, DecidableEq

/-- A fault-free provider. -/
def noFaults : Faults :=
  ⟨none, none, none, none, none, none, none, none, none, none, none⟩

/-- Static configuration consumed by the Auto VPC builder (config.json keys
`CIDR_BLOCK`, `TAG_VPC_NAME`, `TAG_ENV`, `TAG_RTB`, `TAG_IGW_NAME`,
`TAG_SUBNET`, `DEST_CIDR_BLOCK`). -/
structure AutoConfig where
  cidrBlock : String
  tagVpcName : String
  tagEnv : String
  tagRtb : String
  tagIgwName : String
  tagSubnet : String
  destCidrBlock : String
deriving Repr, DecidableEq

/-- Provider semantics of describe_vpcs with the three filters used by
`vpc_exists` (cidr, tag:Name, tag:Environment); tag filtering is exact-match. -/
def awsDescribeVpcsFiltered (st : Ec2State) (cidr nm env : String) : List Vpc :=
  st.vpcs.filter fun v =>
    v.cidrBlock == cidr && hasTag v.tags "Name" nm && hasTag v.tags "Environment" env

/-- Provider semantics of describe_vpcs filtered by tag:Name and
tag:Environment only (as used by `get_vpc_id` in the Auto helper). -/
def awsDescribeVpcsByTags (st : Ec2State) (nm env : String) : List Vpc :=
  st.vpcs.filter fun v =>
    hasTag v.tags "Name" nm && hasTag v.tags "Environment" env

/-- Provider semantics of describe_route_tables filtered by tag:Name only
(as used by `get_route_table_id`). -/
def awsDescribeRouteTablesByName (st : Ec2State) (nm : String) : List RouteTable :=
  st.routeTables.filter fun rt => hasTag rt.tags "Name" nm

/-- Provider semantics of describe_route_tables with tag:Name,
tag:Environment and vpc-id filters (as used by `route_table_exists`). -/
def awsDescribeRouteTablesFiltered (st : Ec2State) (nm env vpcId : String) :
    List RouteTable :=
  st.routeTables.filter fun rt =>
    hasTag rt.tags "Name" nm && hasTag rt.tags "Environment" env && rt.vpcId == vpcId

/-- Provider semantics of describe_internet_gateways with tag:Name and
tag:Environment filters (as used by `internet_gateway_exists`). -/
def awsDescribeIgwsFiltered (st : Ec2State) (nm env : String) :
    List InternetGateway :=
  st.igws.filter fun g =>
    hasTag g.tags "Name" nm && hasTag g.tags "Environment" env

/-- Provider semantics of describe_internet_gateways filtered by tag:Name only
(as used by `get_internet_gateway_id`). -/
def awsDescribeIgwsByName (st : Ec2State) (nm : String) : List InternetGateway :=
  st.igws.filter fun g => hasTag g.tags "Name" nm

/-- The provider-assigned ID the next create_vpc call will mint. -/
def freshVpcId (st : Ec2State) : String := "vpc-" ++ toString st.nextId

/-- Provider semantics of create_vpc: mints a fresh ID and stores the VPC with
exactly the tags the request carries. -/
def awsCreateVpc (st : Ec2State) (cidr nm env : String) : Vpc × Ec2State :=
  let v : Vpc := ⟨freshVpcId st, cidr, [("Name", nm), ("Environment", env)]⟩
  (v, { st with vpcs := st.vpcs ++ [v], nextId := st.nextId + 1 })

/-- Provider semantics of delete_route: removes the route with the given
destination CIDR from the given route table. -/
def awsDeleteRoute (st : Ec2State) (rtbId dest : String) : Ec2State :=
  { st with routeTables := st.routeTables.map fun rt =>
      if rt.routeTableId == rtbId then
        { rt with routes := rt.routes.filter (fun d => !(d == dest)) }
      else rt }

/-- Provider semantics of detach_internet_gateway. -/
def awsDetachIgw (st : Ec2State) (igwId : String) : Ec2State :=
  { st with igws := st.igws.map fun g =>
      if g.igwId == igwId then { g with attachedVpc := none } else g }

/-- Provider semantics of delete_internet_gateway. -/
def awsDeleteIgw (st : Ec2State) (igwId : String) : Ec2State :=
  { st with igws := st.igws.filter (fun g => !(g.igwId == igwId)) }

/-- Provider semantics of disassociate_route_table. -/
def awsDisassociate (st : Ec2State) (assocId : String) : Ec2State :=
  { st with routeTables := st.routeTables.map fun rt =>
      { rt with associations :=
          rt.associations.filter (fun a => !(a.associationId == assocId)) } }

/-- Provider semantics of delete_route_table. -/
def awsDeleteRouteTable (st : Ec2State) (rtbId : String) : Ec2State :=
  { st with routeTables := st.routeTables.filter (fun rt => !(rt.routeTableId == rtbId)) }

/-- Provider semantics of delete_subnet. -/
def awsDeleteSubnet (st : Ec2State) (subnetId : String) : Ec2State :=
  { st with subnets := st.subnets.filter (fun s => !(s.subnetId == subnetId)) }

/-- Provider semantics of delete_vpc. -/
def awsDeleteVpc (st : Ec2State) (vpcId : String) : Ec2State :=
  { st with vpcs := st.vpcs.filter (fun v => !(v.vpcId == vpcId)) }

/-- Decides whether `pat` occurs at the start of `s` (character lists). -/
def listStartsWith : List Char → List Char → Bool
  | _, [] => true
  | [], _ :: _ => false
  | c :: cs, p :: ps => c == p && listStartsWith cs ps

/-- Decides whether `pat` occurs somewhere inside `s` (character lists);
models Python's `pat in s` substring test. -/
def listHasSub : List Char → List Char → Bool
  | [], pat => pat.isEmpty
  | c :: cs, pat => listStartsWith (c :: cs) pat || listHasSub cs pat

/-- Substring test on strings, models Python's `pat in s`. -/
def strContainsSub (s pat : String) : Bool := listHasSub s.data pat.data

/-- Models Python's `s.startswith(pat)`. -/
def strStartsWith (s pat : String) : Bool := listStartsWith s.data pat.data

/-- Models Python's `s.lower()`. -/
def strToLower (s : String) : String := String.mk (s.data.map Char.toLower)

/-- Digit-run parser underlying `pyInt`. -/
def parseDigitsAux : List Char → Nat → Option Nat
  | [], acc => some acc
  | c :: cs, acc =>
      if c.isDigit then parseDigitsAux cs (acc * 10 + (c.toNat - 48)) else none

/-- Models Python's `int(s)` on plain decimal literals with an optional
leading minus sign; any other string raises ValueError, modelled as `none`. -/
def pyInt (s : String) : Option Int :=
  match s.data with
  | [] => none
  | '-' :: rest =>
      if rest.isEmpty then none
      else (parseDigitsAux rest 0).map (fun n => -(n : Int))
  | l => (parseDigitsAux l 0).map (fun n => (n : Int))

/-- Embedding of helper.vpc_exists (Auto/Env/Dev/VPC/helper.py, lines 10-34;
identical logic in Manual/Create/VPC/1_vpc_create.py lines 12-39): returns
`(len(response.Vpcs) > 0, "")` on success and `(False, error message)` on a
`ClientError`. -/
def vpc_exists (st : Ec2State) (fault : Option String)
    (a_cidr a_tag_name a_tag_env : String) : (Bool × String) × List ApiCall :=
  match fault with
  | some e =>
      ((false, "Error checking VPC existence: " ++ e), [ApiCall.describeVpcs])
  | none =>
      ((decide (0 < (awsDescribeVpcsFiltered st a_cidr a_tag_name a_tag_env).length), ""),
        [ApiCall.describeVpcs])

/-- Embedding of helper.create_vpc (helper.py lines 233-262; identical in
1_vpc_create.py lines 41-73): creates the VPC with Name and Environment tags,
returning `(vpc_id, "")` on success, `("", error message)` on `ClientError`. -/
def create_vpc (st : Ec2State) (fault : Option String)
    (i_cidr_block i_tag_name i_tag_env : String) :
    (String × String) × Ec2State × List ApiCall :=
  match fault with
  | some e =>
      (("", "Error creating VPC: " ++ e), st,
        [ApiCall.createVpc i_cidr_block i_tag_name i_tag_env])
  | none =>
      let (v, st') := awsCreateVpc st i_cidr_block i_tag_name i_tag_env
      ((v.vpcId, ""), st', [ApiCall.createVpc i_cidr_block i_tag_name i_tag_env])

/-- Embedding of helper.get_vpc_id (helper.py lines 117-140): looks the VPC up
by the configured Name and Environment tags; returns `(id, None)`,
`(None, "No matching VPC found.")`, or `(None, error)` on `ClientError`. -/
def get_vpc_id (cfg : AutoConfig) (st : Ec2State) (fault : Option String) :
    (Option String × Option String) × List ApiCall :=
  match fault with
  | some e =>
      ((none, some ("Error checking VPC existence: " ++ e)), [ApiCall.describeVpcs])
  | none =>
      match awsDescribeVpcsByTags st cfg.tagVpcName cfg.tagEnv with
      | [] => ((none, some "No matching VPC found."), [ApiCall.describeVpcs])
      | v :: _ => ((some v.vpcId, none), [ApiCall.describeVpcs])

/-- Embedding of helper.get_route_table_id (helper.py lines 142-166; identical
in Manual/Delete/VPC/4_vpc_disassociate_subnet.py lines 11-40): returns the
first matching route table's ID, or a sentinel error string. -/
def get_route_table_id (st : Ec2State) (fault : Option String)
    (f_tag_name : String) : String × List ApiCall :=
  match fault with
  | some e =>
      ("Client error retrieving route table ID: " ++ e, [ApiCall.describeRouteTables])
  | none =>
      match awsDescribeRouteTablesByName st f_tag_name with
      | [] => ("No route table found with tag: " ++ f_tag_name, [ApiCall.describeRouteTables])
      | rt :: _ => (rt.routeTableId, [ApiCall.describeRouteTables])

/-- Embedding of helper.get_internet_gateway_id (helper.py lines 168-190). -/
def get_internet_gateway_id (st : Ec2State) (fault : Option String)
    (g_tag_name : String) : (Option String × Option String) × List ApiCall :=
  match fault with
  | some e =>
      ((none, some ("Error checking Internet Gateway existence: " ++ e)),
        [ApiCall.describeInternetGateways])
  | none =>
      match awsDescribeIgwsByName st g_tag_name with
      | [] => ((none, some "No Internet Gateway found with the specified tag."),
          [ApiCall.describeInternetGateways])
      | g :: _ => ((some g.igwId, none), [ApiCall.describeInternetGateways])

/-- Embedding of helper.route_table_exists (helper.py lines 67-91): returns a
bare boolean and, on a `ClientError`, simply returns `False` — collapsing a
failed query into the same value as a successful query with zero matches. -/
def route_table_exists (st : Ec2State) (fault : Option String)
    (c_tag_name c_tag_env c_vpc_id : String) : Bool :=
  match fault with
  | some _ => false
  | none => decide (0 < (awsDescribeRouteTablesFiltered st c_tag_name c_tag_env c_vpc_id).length)

/-- Embedding of helper.internet_gateway_exists (helper.py lines 93-115):
returns a bare boolean and `False` on a `ClientError`. -/
def internet_gateway_exists (st : Ec2State) (fault : Option String)
    (d_tag_name d_tag_env : String) : Bool :=
  match fault with
  | some _ => false
  | none => decide (0 < (awsDescribeIgwsFiltered st d_tag_name d_tag_env).length)

/-- Embedding of helper.get_subnet_info (helper.py lines 192-231): lists the
subnets whose Name tag starts with the given prefix; returns
`(details, Except.ok ids)` on success and `(empty, Except.error msg)` on a
`ClientError` (Python returns `({}, error_string)`). -/
def get_subnet_info (st : Ec2State) (fault : Option String)
    (h_tag_name_pre : String) :
    (List (String × String) × Except String (List String)) × List ApiCall :=
  match fault with
  | some e =>
      (([], Except.error ("Client error retrieving subnet information: " ++ e)),
        [ApiCall.describeSubnets])
  | none =>
      let matching := st.subnets.filter fun s =>
        s.tags.any fun t => t.1 == "Name" && strStartsWith t.2 h_tag_name_pre
      ((matching.map (fun s => (s.subnetId, s.cidrBlock)),
        Except.ok (matching.map (fun s => s.subnetId))),
        [ApiCall.describeSubnets])

/-- Embedding of helper.delete_route (helper.py lines 454-477): deletes the
route, returning a success or error message string. -/
def delete_route (st : Ec2State) (fault : Option String)
    (o_rtb_id o_dest_cidr_block : String) : String × Ec2State × List ApiCall :=
  match fault with
  | some e =>
      ("Client error deleting route: " ++ e, st,
        [ApiCall.deleteRoute o_rtb_id o_dest_cidr_block])
  | none =>
      ("Route deleted successfully from Route Table " ++ o_rtb_id ++
        " for CIDR block " ++ o_dest_cidr_block,
        awsDeleteRoute st o_rtb_id o_dest_cidr_block,
        [ApiCall.deleteRoute o_rtb_id o_dest_cidr_block])

/-- Embedding of helper.detach_internet_gateway (helper.py lines 479-501). -/
def detach_internet_gateway (st : Ec2State) (fault : Option String)
    (p_igw_id p_vpc_id : String) : String × Ec2State × List ApiCall :=
  match fault with
  | some e =>
      ("Client error detaching Internet Gateway: " ++ e, st,
        [ApiCall.detachInternetGateway p_igw_id p_vpc_id])
  | none =>
      ("Internet Gateway " ++ p_igw_id ++ " detached from VPC " ++ p_vpc_id ++
        " successfully.",
        awsDetachIgw st p_igw_id,
        [ApiCall.detachInternetGateway p_igw_id p_vpc_id])

/-- Embedding of helper.delete_internet_gateway (helper.py lines 503-520). -/
def delete_internet_gateway (st : Ec2State) (fault : Option String)
    (q_igw_id : String) : String × Ec2State × List ApiCall :=
  match fault with
  | some e =>
      ("Error deleting Internet Gateway: " ++ e, st,
        [ApiCall.deleteInternetGateway q_igw_id])
  | none =>
      ("Internet Gateway " ++ q_igw_id ++ " deleted successfully.",
        awsDeleteIgw st q_igw_id,
        [ApiCall.deleteInternetGateway q_igw_id])

/-- The for-loop of disassociate_subnets_from_route_table (helper.py lines
543-547): walks the associations, issuing a disassociate call for each
association whose Main flag is false and skipping those with Main true.  A
`ClientError` on a disassociate call aborts the whole function with an error
message (the calls made before it stand). -/
def disassocLoop (fault : Option String) (st : Ec2State)
    (assocs : List RtAssociation) (count : Nat) (removed : List String) :
    Except String (Nat × List String) × Ec2State × List ApiCall :=
  match assocs with
  | [] => (Except.ok (count, removed), st, [])
  | a :: rest =>
      if !a.main then
        match fault with
        | some e =>
            (Except.error ("Client error disassociating subnet from route table: " ++ e),
              st, [ApiCall.disassociateRouteTable a.associationId])
        | none =>
            let (r, st', tr) :=
              disassocLoop fault (awsDisassociate st a.associationId) rest
                (count + 1) (removed ++ [a.subnetId])
            (r, st', ApiCall.disassociateRouteTable a.associationId :: tr)
      else
        disassocLoop fault st rest count removed

/-- Embedding of helper.disassociate_subnets_from_route_table (helper.py lines
522-557; identical in Manual/Delete/VPC/4_vpc_disassociate_subnet.py lines
42-83): resolves the route table by tag, reads its associations, and
disassociates every non-main one. -/
def disassociate_subnets_from_route_table (st : Ec2State) (flt : Faults)
    (r_tag_name : String) : String × Ec2State × List ApiCall :=
  let (r_route_table_id, t1) := get_route_table_id st flt.fDescribeRouteTables r_tag_name
  if strStartsWith r_route_table_id "No route table found" then
    (r_route_table_id, st, t1)
  else
    match flt.fDescribeRouteTables with
    | some e =>
        ("Client error disassociating subnet from route table: " ++ e, st,
          t1 ++ [ApiCall.describeRouteTables])
    | none =>
        match (st.routeTables.filter (fun rt => rt.routeTableId == r_route_table_id)).head? with
        | none =>
            ("Error disassociating subnet from route table: no route table", st,
              t1 ++ [ApiCall.describeRouteTables])
        | some rt =>
            let (r, st', t2) := disassocLoop flt.fDisassociateRouteTable st rt.associations 0 []
            match r with
            | Except.error msg => (msg, st', t1 ++ [ApiCall.describeRouteTables] ++ t2)
            | Except.ok (n, removed) =>
                if 0 < n then
                  ("Successfully disassociated " ++ toString n ++
                    " subnet(s) from route table " ++ r_route_table_id ++ ". \n" ++
                    "Removed subnets: " ++ String.intercalate ", " removed ++ ".",
                    st', t1 ++ [ApiCall.describeRouteTables] ++ t2)
                else
                  ("No non-main subnets found associated with route table " ++
                    r_route_table_id ++ ".",
                    st', t1 ++ [ApiCall.describeRouteTables] ++ t2)

/-- Embedding of helper.delete_route_table (helper.py lines 559-581). -/
def delete_route_table (st : Ec2State) (fault : Option String)
    (s_rtb_id : String) : String × Ec2State × List ApiCall :=
  match fault with
  | some e =>
      ("Client error deleting route table: " ++ e, st,
        [ApiCall.deleteRouteTable s_rtb_id])
  | none =>
      ("Route Table " ++ s_rtb_id ++ " deleted successfully.",
        awsDeleteRouteTable st s_rtb_id,
        [ApiCall.deleteRouteTable s_rtb_id])

/-- Embedding of helper.delete_vpc (helper.py lines 583-600): returns the HTTP
status code (200) on success, an error string on `ClientError`. -/
def delete_vpc (st : Ec2State) (fault : Option String)
    (t_vpc_id : String) : Except String Nat × Ec2State × List ApiCall :=
  match fault with
  | some e =>
      (Except.error ("Error deleting VPC: " ++ e), st, [ApiCall.deleteVpc t_vpc_id])
  | none =>
      (Except.ok 200, awsDeleteVpc st t_vpc_id, [ApiCall.deleteVpc t_vpc_id])

/-- The distinct messages create_vpc_operation can print (main.py lines 20-39;
same structure in 1_vpc_create.py lines 75-94).  The Found branch prints the
configured Name, Environment and CIDR block; only the freshly-created branch
carries a VPC ID. -/
inductive VpcOpOutput where
  | vpcExistsMsg (name env cidr : String)
  | vpcDetails (vpcId name : String)
  | errorMsg (msg : String)
deriving Repr, DecidableEq

/-- The ID a `VpcOpOutput` reports, if any: only the created-details message
carries one. -/
def reportedVpcId : VpcOpOutput → Option String
  | VpcOpOutput.vpcDetails id _ => some id
  | _ => none

/-- Embedding of create_vpc_operation (Auto/Env/Dev/VPC/main.py lines 20-39;
the Manual 1_vpc_create.py `__main__` block lines 75-94 is the same logic):
checks existence with `vpc_exists` and only calls `create_vpc` when the check
returned False.  Note the error component of `vpc_exists` is ignored, exactly
as in the source. -/
def create_vpc_operation (cfg : AutoConfig) (describeFault createFault : Option String)
    (st : Ec2State) : VpcOpOutput × Ec2State × List ApiCall :=
  let ((vpc_exists_result, _vpc_exists_error), t1) :=
    vpc_exists st describeFault cfg.cidrBlock cfg.tagVpcName cfg.tagEnv
  if vpc_exists_result then
    (VpcOpOutput.vpcExistsMsg cfg.tagVpcName cfg.tagEnv cfg.cidrBlock, st, t1)
  else
    let ((vpc_id, create_vpc_error), st', t2) :=
      create_vpc st createFault cfg.cidrBlock cfg.tagVpcName cfg.tagEnv
    if create_vpc_error == "" then
      (VpcOpOutput.vpcDetails vpc_id cfg.tagVpcName, st', t1 ++ t2)
    else
      (VpcOpOutput.errorMsg ("Error: " ++ create_vpc_error), st', t1 ++ t2)

/-- Embedding of delete_route_operation (main.py lines 171-178). -/
def delete_route_operation (cfg : AutoConfig) (flt : Faults) (st : Ec2State) :
    List String × Ec2State × List ApiCall :=
  let (route_table_id, t1) := get_route_table_id st flt.fDescribeRouteTables cfg.tagRtb
  if strContainsSub route_table_id "No route table found" then
    (["Error: " ++ route_table_id], st, t1)
  else
    let (result, st', t2) := delete_route st flt.fDeleteRoute route_table_id cfg.destCidrBlock
    ([result], st', t1 ++ t2)

/-- Embedding of detach_internet_gateway_operation (main.py lines 189-202). -/
def detach_internet_gateway_operation (cfg : AutoConfig) (flt : Faults)
    (st : Ec2State) : List String × Ec2State × List ApiCall :=
  let ((vpc_id, e1), t1) := get_vpc_id cfg st flt.fDescribeVpcs
  match e1 with
  | some e => (["Error: " ++ e], st, t1)
  | none =>
      let ((igw_id, e2), t2) := get_internet_gateway_id st flt.fDescribeInternetGateways cfg.tagIgwName
      match e2 with
      | some e => (["Error: " ++ e], st, t1 ++ t2)
      | none =>
          let (result, st', t3) :=
            detach_internet_gateway st flt.fDetachInternetGateway
              (igw_id.getD "") (vpc_id.getD "")
          ([result], st', t1 ++ t2 ++ t3)

/-- Embedding of delete_internet_gateway_operation (main.py lines 204-212). -/
def delete_internet_gateway_operation (cfg : AutoConfig) (flt : Faults)
    (st : Ec2State) : List String × Ec2State × List ApiCall :=
  let ((igw_id, e1), t1) := get_internet_gateway_id st flt.fDescribeInternetGateways cfg.tagIgwName
  match e1 with
  | some e => (["Error: " ++ e], st, t1)
  | none =>
      let (result, st', t2) := delete_internet_gateway st flt.fDeleteInternetGateway (igw_id.getD "")
      ([result], st', t1 ++ t2)

/-- Embedding of disassociate_subnets_operation (main.py lines 214-217). -/
def disassociate_subnets_operation (cfg : AutoConfig) (flt : Faults)
    (st : Ec2State) : List String × Ec2State × List ApiCall :=
  let (result, st', tr) := disassociate_subnets_from_route_table st flt cfg.tagRtb
  ([result], st', tr)

/-- Embedding of delete_route_table_operation (main.py lines 180-187): the
guard collapses the "No route table found" sentinel and any string whose
lowercase form contains "error" into the same printed-error outcome. -/
def delete_route_table_operation (cfg : AutoConfig) (flt : Faults)
    (st : Ec2State) : List String × Ec2State × List ApiCall :=
  let (route_table_id, t1) := get_route_table_id st flt.fDescribeRouteTables cfg.tagRtb
  if strContainsSub route_table_id "No route table found" ||
      strContainsSub (strToLower route_table_id) "error" then
    (["Error: " ++ route_table_id], st, t1)
  else
    let (result, st', t2) := delete_route_table st flt.fDeleteRouteTable route_table_id
    ([result], st', t1 ++ t2)

/-- Models Python iterating `subnet_ids`: a list yields its elements, while an
error string (as returned by get_subnet_info on failure) is iterated
character by character — exactly what `for subnet_id in subnet_ids` does when
`subnet_ids` is a string. -/
def pyIterIds : Except String (List String) → List String
  | Except.ok l => l
  | Except.error s => s.data.map (fun c => String.mk [c])

/-- The deletion for-loop of delete_subnets_operation (main.py lines 228-235):
a `ClientError` on one subnet is printed and the loop continues. -/
def deleteSubnetsLoop (fault : Option String) :
    Ec2State → List String → List String × Ec2State × List ApiCall
  | st, [] => ([], st, [])
  | st, i :: rest =>
      match fault with
      | some e =>
          let (m, st', tr) := deleteSubnetsLoop fault st rest
          (("Error: Failed to delete Subnet ID: " ++ i ++ ", Error: " ++ e) :: m,
            st', ApiCall.deleteSubnet i :: tr)
      | none =>
          let (m, st', tr) := deleteSubnetsLoop fault (awsDeleteSubnet st i) rest
          (("Deleted Subnet ID: " ++ i) :: m, st', ApiCall.deleteSubnet i :: tr)

/-- Embedding of delete_subnets_operation (main.py lines 219-235). -/
def delete_subnets_operation (cfg : AutoConfig) (flt : Faults)
    (st : Ec2State) : List String × Ec2State × List ApiCall :=
  let ((_subnet_details, subnet_ids), t1) := get_subnet_info st flt.fDescribeSubnets cfg.tagSubnet
  let ids := pyIterIds subnet_ids
  let msgs1 :=
    if ids.isEmpty then ["Error: No subnets found or an error occurred."]
    else ids.map (fun i => "Subnet ID: " ++ i)
  let (msgs2, st', t2) := deleteSubnetsLoop flt.fDeleteSubnet st ids
  (msgs1 ++ msgs2, st', t1 ++ t2)

/-- Embedding of delete_vpc_operation (main.py lines 237-249). -/
def delete_vpc_operation (cfg : AutoConfig) (flt : Faults)
    (st : Ec2State) : List String × Ec2State × List ApiCall :=
  let ((vpc_id, error_message), t1) := get_vpc_id cfg st flt.fDescribeVpcs
  match error_message with
  | some e => (["Error: " ++ e], st, t1)
  | none =>
      match vpc_id with
      | some vid =>
          let (status, st', t2) := delete_vpc st flt.fDeleteVpc vid
          match status with
          | Except.ok code =>
              (["VPC " ++ vid ++ " deleted successfully with status code: " ++ toString code],
                st', t1 ++ t2)
          | Except.error msg => (["Error: " ++ msg], st', t1 ++ t2)
      | none => (["Error: No VPC to delete."], st, t1)

/-- Embedding of the `operation == "delete"` branch of main (main.py lines
264-272): the seven teardown operations run unconditionally in this order —
delete route, detach gateway, delete gateway, disassociate subnets, delete
route table, delete subnets, delete VPC. -/
def mainDelete (cfg : AutoConfig) (flt : Faults) (st : Ec2State) :
    List String × Ec2State × List ApiCall :=
  let (o1, st1, t1) := delete_route_operation cfg flt st
  let (o2, st2, t2) := detach_internet_gateway_operation cfg flt st1
  let (o3, st3, t3) := delete_internet_gateway_operation cfg flt st2
  let (o4, st4, t4) := disassociate_subnets_operation cfg flt st3
  let (o5, st5, t5) := delete_route_table_operation cfg flt st4
  let (o6, st6, t6) := delete_subnets_operation cfg flt st5
  let (o7, st7, t7) := delete_vpc_operation cfg flt st6
  (o1 ++ o2 ++ o3 ++ o4 ++ o5 ++ o6 ++ o7, st7,
    t1 ++ t2 ++ t3 ++ t4 ++ t5 ++ t6 ++ t7)

/-- The seven kinds of provider mutation the teardown issues. -/
inductive MutKind where
  | route | detach | igw | disassoc | rtb | subnet | vpc
deriving Repr, DecidableEq

/-- Classifies an API call as one of the teardown mutation kinds; read-only
describe calls and all creation-side calls map to none. -/
def mutKindOf : ApiCall → Option MutKind
  | ApiCall.deleteRoute _ _ => some MutKind.route
  | ApiCall.detachInternetGateway _ _ => some MutKind.detach
  | ApiCall.deleteInternetGateway _ => some MutKind.igw
  | ApiCall.disassociateRouteTable _ => some MutKind.disassoc
  | ApiCall.deleteRouteTable _ => some MutKind.rtb
  | ApiCall.deleteSubnet _ => some MutKind.subnet
  | ApiCall.deleteVpc _ => some MutKind.vpc
  | _ => none

/-- The mutation kinds of a trace, in order. -/
def mutKinds (tr : List ApiCall) : List MutKind := tr.filterMap mutKindOf

/-- Position of each mutation kind in the order the code actually executes
(main.py lines 264-272). -/
def codeKindIdx : MutKind → Nat
  | MutKind.route => 0
  | MutKind.detach => 1
  | MutKind.igw => 2
  | MutKind.disassoc => 3
  | MutKind.rtb => 4
  | MutKind.subnet => 5
  | MutKind.vpc => 6

/-- Modelled from the spec: position of each mutation kind in the order the
specification claims ("route → route-table associations (non-main only) →
route table → gateway detachment → gateway deletion → subnets → network"). -/
def claimedKindIdx : MutKind → Nat
  | MutKind.route => 0
  | MutKind.disassoc => 1
  | MutKind.rtb => 2
  | MutKind.detach => 3
  | MutKind.igw => 4
  | MutKind.subnet => 5
  | MutKind.vpc => 6

/-- Creation-side provider calls (used to state that the teardown issues no
compensating rollback). -/
def isCreationCall : ApiCall → Bool
  | ApiCall.createVpc _ _ _ => true
  | ApiCall.createSubnet _ _ _ => true
  | ApiCall.createRouteTable => true
  | ApiCall.associateRouteTable _ _ => true
  | ApiCall.createInternetGateway => true
  | ApiCall.attachInternetGateway _ _ => true
  | ApiCall.createRoute _ _ _ => true
  | _ => false

/-- A file on the local disk: path, content, and permission bits. -/
structure LocalFile where
  path : String
  content : String
  mode : Nat
deriving Repr, DecidableEq

/-- State for the key-pair creation script: the provider-side key-pair names
and the local working directory's files. -/
structure KpState where
  awsKeyNames : List String
  files : List LocalFile
deriving Repr, DecidableEq

/-- Observable actions of the key-pair creation script, in order. -/
inductive KpEvent where
  | describeKeyPairsCall (name : String)
  | removeLocalFile (path : String)
  | createKeyPairCall (name : String)
  | writeFile (path content : String)
  | chmodFile (path : String) (mode : Nat)
deriving Repr, DecidableEq

/-- The private-key material the provider mints for a key pair; it is
returned exactly once, at creation. -/
def keyMaterialOf (name : String) : String := "PRIVATE-KEY-" ++ name

/-- Filesystem semantics of `open(path, 'w')` followed by writing: truncates
or creates the file (default permissions modelled as 0o600). -/
def fsWrite (st : KpState) (path content : String) : KpState :=
  { st with files := st.files.filter (fun f => !(f.path == path)) ++ [⟨path, content, 0o600⟩] }

/-- Filesystem semantics of `os.chmod`. -/
def fsChmod (st : KpState) (path : String) (mode : Nat) : KpState :=
  { st with files := st.files.map fun f =>
      if f.path == path then { f with mode := mode } else f }

/-- Filesystem semantics of `os.remove`. -/
def fsRemove (st : KpState) (path : String) : KpState :=
  { st with files := st.files.filter (fun f => !(f.path == path)) }

/-- The file stored at a path, if any. -/
def localFileAt (st : KpState) (path : String) : Option LocalFile :=
  (st.files.filter (fun f => f.path == path)).head?

/-- Embedding of key_pair_exists (ec2_create_key_pair.py lines 49-68):
describe_key_pairs by name; the `InvalidKeyPair.NotFound` error is mapped to
False (that is what absence looks like), and any other `ClientError` is
printed and also collapsed to False. -/
def key_pair_exists (st : KpState) (fault : Option String) (kpe_key_name : String) : Bool :=
  match fault with
  | some _ => false
  | none => st.awsKeyNames.contains kpe_key_name

/-- Embedding of local_key_exists (ec2_create_key_pair.py lines 89-99). -/
def local_key_exists (st : KpState) (lke_key_name : String) : Bool :=
  st.files.any (fun f => f.path == lke_key_name ++ ".pem")

/-- Embedding of save_private_key_to_file (ec2_create_key_pair.py lines
70-87): writes `<name>.pem` in the working directory, then chmods it to
0o400 (owner read-only). -/
def save_private_key_to_file (st : KpState) (spktf_key_name spktf_private_key : String) :
    KpState × List KpEvent :=
  let file_name := spktf_key_name ++ ".pem"
  let st1 := fsWrite st file_name spktf_private_key
  let st2 := fsChmod st1 file_name 0o400
  (st2, [KpEvent.writeFile file_name spktf_private_key, KpEvent.chmodFile file_name 0o400])

/-- Embedding of create_key_pair (ec2_create_key_pair.py lines 9-47): issues
the create call (tagged with Name only), saves the returned private key to a
file, and returns the response; `none` on a `ClientError`. -/
def create_key_pair (st : KpState) (fault : Option String) (ckp_key_name : String) :
    Option String × KpState × List KpEvent :=
  match fault with
  | some _ => (none, st, [KpEvent.createKeyPairCall ckp_key_name])
  | none =>
      let private_key := keyMaterialOf ckp_key_name
      let st1 := { st with awsKeyNames := st.awsKeyNames ++ [ckp_key_name] }
      let (st2, ev) := save_private_key_to_file st1 ckp_key_name private_key
      (some private_key, st2, KpEvent.createKeyPairCall ckp_key_name :: ev)

/-- Embedding of the `__main__` block of ec2_create_key_pair.py (lines
101-118): if the name is unknown to the provider but `<name>.pem` exists
locally, the local file is removed before the create call is issued. -/
def ec2_create_key_pair_main (st : KpState) (describeFault createFault : Option String)
    (key_name : String) : KpState × List KpEvent × List String :=
  if key_pair_exists st describeFault key_name then
    (st, [KpEvent.describeKeyPairsCall key_name],
      ["Key pair '" ++ key_name ++ "' already exists in AWS, no action taken."])
  else if local_key_exists st key_name then
    let st1 := fsRemove st (key_name ++ ".pem")
    let (response, st2, ev) := create_key_pair st1 createFault key_name
    (st2,
      KpEvent.describeKeyPairsCall key_name ::
        KpEvent.removeLocalFile (key_name ++ ".pem") :: ev,
      ["Local key pair '" ++ key_name ++ ".pem' exists. Deleting it.",
        "Local key pair '" ++ key_name ++ ".pem' has been deleted."] ++
        (if response.isSome then ["Key pair " ++ key_name ++ " created."] else []))
  else
    let (response, st2, ev) := create_key_pair st createFault key_name
    (st2, KpEvent.describeKeyPairsCall key_name :: ev,
      if response.isSome then ["Key pair " ++ key_name ++ " created."] else [])

/-- Embedding of prompt_with_retries (ec2_create_security_group.py lines
58-68; ec2_list_key_pairs.py lines 60-79) over an explicit stream of input
lines.  Only EMPTY inputs count against the retry budget: a non-empty input
is returned immediately, and after the budget is spent the sentinel string
"no" is returned.  `none` models the uncaught EOFError raised when the input
stream is exhausted mid-prompt. -/
def prompt_with_retries : Nat → List String → Option (String × List String)
  | 0, rest => some ("no", rest)
  | _ + 1, [] => none
  | r + 1, s :: rest => if s == "" then prompt_with_retries r rest else some (s, rest)

/-- A prompt_with_retries call that yields a value has consumed at least one
input line. -/
theorem prompt_with_retries_consumes (r : Nat) :
    ∀ (inputs rest : List String) (s : String),
      prompt_with_retries (r + 1) inputs = some (s, rest) →
      rest.length < inputs.length := by
  induction r with
  | zero =>
      intro inputs rest s h
      match inputs with
      | [] => simp [prompt_with_retries] at h
      | a :: as =>
          rw [prompt_with_retries] at h
          split at h
          · rw [prompt_with_retries] at h
            cases h
            simp only [List.length_cons]
            omega
          · cases h
            simp only [List.length_cons]
            omega
  | succ r ih =>
      intro inputs rest s h
      match inputs with
      | [] => simp [prompt_with_retries] at h
      | a :: as =>
          rw [prompt_with_retries] at h
          split at h
          · exact Nat.lt_trans (ih as rest s h)
              (by simp only [List.length_cons]; omega)
          · cases h
            simp only [List.length_cons]
            omega

/-- Embedding of prompt_port (ec2_create_security_group.py lines 236-246):
`while True` around `int(prompt_with_retries(...))` with a range check.
`pyInt` models `int(...)`, whose `ValueError` is caught and answered
by another round of the loop — including when prompt_with_retries has already
returned the retry-exhaustion sentinel "no".  The function can only stop by
accepting a port or by running out of input (`none`, an uncaught EOFError);
it has no abort path returning a failure value. -/
def prompt_port (inputs : List String) : Option (Nat × List String) :=
  match h : prompt_with_retries 3 inputs with
  | none => none
  | some (s, rest) =>
      match pyInt s with
      | none => prompt_port rest
      | some p => if 0 ≤ p ∧ p ≤ 65535 then some (p.toNat, rest) else prompt_port rest
termination_by inputs.length
decreasing_by
  all_goals exact prompt_with_retries_consumes 2 inputs rest s h

/-- Embedding of prompt_protocol (ec2_create_security_group.py lines
225-234): `while True` that returns a `none`-wrapped failure when the
sentinel "no" arrives, accepts only "tcp"/"udp", and loops on anything else. -/
def prompt_protocol (inputs : List String) : Option (Option String × List String) :=
  match h : prompt_with_retries 3 inputs with
  | none => none
  | some (s, rest) =>
      if s == "no" then some (none, rest)
      else if s == "tcp" || s == "udp" then some (some s, rest)
      else prompt_protocol rest
termination_by inputs.length
decreasing_by
  all_goals exact prompt_with_retries_consumes 2 inputs rest s h

/-- Outcome of an interactive script prefix: it either proceeds with the
collected values and the unconsumed input, exits via `exit()`, or crashes on
exhausted input (EOFError). -/
inductive PromptOutcome (α : Type) where
  | proceeds (a : α) (rest : List String)
  | exitScript
  | crashes
deriving Repr, DecidableEq

/-- Embedding of the four prompts opening the `__main__` block of
ec2_create_security_group.py (lines 248-264): group name, description, VPC
ID and tag value; each aborts the script when the value is exactly "no". -/
def sg_main_prompts (inputs : List String) :
    PromptOutcome (String × String × String × String) :=
  match prompt_with_retries 3 inputs with
  | none => PromptOutcome.crashes
  | some (group_name, r1) =>
      if group_name == "no" then PromptOutcome.exitScript else
      match prompt_with_retries 3 r1 with
      | none => PromptOutcome.crashes
      | some (group_description, r2) =>
          if group_description == "no" then PromptOutcome.exitScript else
          match prompt_with_retries 3 r2 with
          | none => PromptOutcome.crashes
          | some (vpc_id, r3) =>
              if vpc_id == "no" then PromptOutcome.exitScript else
              match prompt_with_retries 3 r3 with
              | none => PromptOutcome.crashes
              | some (tag_value, r4) =>
                  if tag_value == "no" then PromptOutcome.exitScript
                  else PromptOutcome.proceeds
                    (group_name, group_description, vpc_id, tag_value) r4

/-- A key pair as returned by describe_key_pairs. -/
structure KeyPairEntry where
  keyName : String
  keyPairId : String
  keyType : String
  keyFingerprint : String
  createTime : String
deriving Repr, DecidableEq

/-- The per-key-pair detail string list_key_pairs builds
(ec2_list_key_pairs.py lines 35-41). -/
def formatKeyPair (kp : KeyPairEntry) : String :=
  "KeyName: " ++ kp.keyName ++ "\n" ++
  "KeyPairId: " ++ kp.keyPairId ++ "\n" ++
  "KeyType: " ++ kp.keyType ++ "\n" ++
  "KeyFingerprint: " ++ kp.keyFingerprint ++ "\n" ++
  "CreateTime: " ++ kp.createTime ++ "\n"

/-- Glob matching over character lists: `*` matches any run of characters,
`?` any single character, everything else is literal.  Models the matching
done by Python's fnmatch.fnmatchcase (first argument is the pattern, second
the name). -/
def globMatch : List Char → List Char → Bool
  | [], [] => true
  | [], _ :: _ => false
  | '*' :: ps, [] => globMatch ps []
  | '*' :: ps, c :: ss => globMatch ps (c :: ss) || globMatch ('*' :: ps) ss
  | '?' :: _, [] => false
  | '?' :: ps, _ :: ss => globMatch ps ss
  | _ :: _, [] => false
  | p :: ps, c :: ss => p == c && globMatch ps ss
termination_by p s => p.length + s.length

/-- Models `fnmatch.fnmatchcase(name, pat)`. -/
def fnmatchcase (name pat : String) : Bool := globMatch pat.data name.data

/-- The client-side filter of list_key_pairs (ec2_list_key_pairs.py line 33):
case-insensitive glob matching of the key name against the search term. -/
def keyPairMatches (lkp_search_term : String) (kp : KeyPairEntry) : Bool :=
  fnmatchcase (strToLower kp.keyName) (strToLower lkp_search_term)

/-- The pagination loop of list_key_pairs (ec2_list_key_pairs.py lines 23-56).
The provider's paged result set is modelled as a list of pages; the
continuation token returned with page `i` is `some (i+1)` while more pages
remain and absent on the last page, and the loop passes exactly that token to
the next fetch and stops when it is absent.  Returns the accumulated detail
strings and the sequence of page indices fetched, in fetch order. -/
def lkpLoop (pages : List (List KeyPairEntry)) (lkp_search_term : String)
    (i : Nat) : List String × List Nat :=
  let page := pages.getD i []
  let matched := (page.filter (keyPairMatches lkp_search_term)).map formatKeyPair
  if h : i + 1 < pages.length then
    let (res, fetched) := lkpLoop pages lkp_search_term (i + 1)
    (matched ++ res, i :: fetched)
  else
    (matched, [i])
termination_by pages.length - i
decreasing_by omega

/-- Embedding of list_key_pairs (ec2_list_key_pairs.py lines 9-58): the first
fetch carries no token, every later fetch carries the token returned by the
previous page. -/
def list_key_pairs (pages : List (List KeyPairEntry)) (lkp_search_term : String) :
    List String × List Nat :=
  lkpLoop pages lkp_search_term 0

/-- Outcome of the `__main__` block of ec2_list_key_pairs.py (lines 81-88). -/
inductive ListKpResult where
  | printed (lines : List String)
  | noValidInput
  | crashes
deriving Repr, DecidableEq

/-- Embedding of the `__main__` block of ec2_list_key_pairs.py (lines 81-88):
prompts for a search term and refuses to treat "no" (case-insensitively) as a
search term, printing "No valid input provided." instead. -/
def ec2_list_key_pairs_main (pages : List (List KeyPairEntry))
    (inputs : List String) : ListKpResult :=
  match prompt_with_retries 3 inputs with
  | none => ListKpResult.crashes
  | some (search_term, _) =>
      if !(strToLower search_term == "no") then
        ListKpResult.printed (list_key_pairs pages search_term).1
      else
        ListKpResult.noValidInput

/-- The create paths of the six resource kinds the scripts create with tags. -/
inductive CreatePath where
  | autoVpc
  | autoSubnet
  | autoRouteTable
  | autoInternetGateway
  | manualVpc
  | manualSubnet
  | manualRouteTable
  | manualInternetGateway
  | securityGroup
  | keyPair
deriving Repr, DecidableEq

/-- The tag list each create (or tagging) call attaches, transcribed from the
source: helper.create_vpc lines 250-258, helper.create_subnet lines 324-331,
main.create_route_table_operation lines 62-77, helper.create_internet_gateway
lines 382-391, 1_vpc_create.create_vpc lines 58-66, 2_vpc_create_subnet lines
110-118, 3_vpc_create_route_table lines 86-95, 5_vpc_create_internet_gateway
lines 51-60, ec2_create_security_group.tag_security_group lines 39-42 (a
single Name tag), and ec2_create_key_pair.create_key_pair lines 24-34 (a
single Name tag).  The first string argument is the Name value, the second
the Environment value used where the path attaches one. -/
def tagsAttached : CreatePath → String → String → List (String × String)
  | CreatePath.autoVpc, nm, env => [("Name", nm), ("Environment", env)]
  | CreatePath.autoSubnet, nm, env => [("Name", nm), ("Environment", env)]
  | CreatePath.autoRouteTable, nm, env => [("Name", nm), ("Environment", env)]
  | CreatePath.autoInternetGateway, nm, env => [("Name", nm), ("Environment", env)]
  | CreatePath.manualVpc, nm, env => [("Name", nm), ("Environment", env)]
  | CreatePath.manualSubnet, nm, env => [("Name", nm), ("Environment", env)]
  | CreatePath.manualRouteTable, nm, env => [("Name", nm), ("Environment", env)]
  | CreatePath.manualInternetGateway, nm, env => [("Name", nm), ("Environment", env)]
  | CreatePath.securityGroup, nm, _ => [("Name", nm)]
  | CreatePath.keyPair, nm, _ => [("Name", nm)]

/-- Whether a tag list carries a tag with the given key. -/
def hasTagKey (tags : List (String × String)) (k : String) : Bool :=
  tags.any (fun t => t.1 == k)

/-- The configuration values the AcmeLabs-Dev environment uses (constants of
the Manual scripts; config.json keys of the Auto scripts). -/
def cfg0 : AutoConfig :=
  ⟨"10.0.0.0/16", "AcmeLabs-Dev", "Dev", "AcmeLabs-Dev-RouteTable",
    "AcmeLabs-Dev-IGW", "AcmeLabs-Dev-Public-Subnet", "0.0.0.0/0"⟩

/-- A provider with no resources at all. -/
def emptyState : Ec2State := ⟨[], [], [], [], 0⟩

/-- A fully built AcmeLabs-Dev environment: one VPC, three public subnets, a
route table with the default route and one main plus three subnet
associations, and an attached internet gateway. -/
def builtState : Ec2State :=
  ⟨[⟨"vpc-0", "10.0.0.0/16", [("Name", "AcmeLabs-Dev"), ("Environment", "Dev")]⟩],
    [⟨"subnet-1", "10.0.1.0/24", "us-east-1a", "vpc-0",
        [("Name", "AcmeLabs-Dev-Public-Subnet-1"), ("Environment", "Dev")]⟩,
      ⟨"subnet-2", "10.0.2.0/24", "us-east-1b", "vpc-0",
        [("Name", "AcmeLabs-Dev-Public-Subnet-2"), ("Environment", "Dev")]⟩,
      ⟨"subnet-3", "10.0.3.0/24", "us-east-1c", "vpc-0",
        [("Name", "AcmeLabs-Dev-Public-Subnet-3"), ("Environment", "Dev")]⟩],
    [⟨"rtb-0", "vpc-0", [("Name", "AcmeLabs-Dev-RouteTable"), ("Environment", "Dev")],
        ["0.0.0.0/0"],
        [⟨"rtbassoc-main", true, ""⟩,
          ⟨"rtbassoc-1", false, "subnet-1"⟩,
          ⟨"rtbassoc-2", false, "subnet-2"⟩,
          ⟨"rtbassoc-3", false, "subnet-3"⟩]⟩],
    [⟨"igw-0", [("Name", "AcmeLabs-Dev-IGW"), ("Environment", "Dev")], some "vpc-0"⟩],
    7⟩

/-- get_route_table_id always issues exactly one describe call. -/
theorem get_route_table_id_trace (st : Ec2State) (f : Option String) (nm : String) :
    (get_route_table_id st f nm).2 = [ApiCall.describeRouteTables] := by
  unfold get_route_table_id
  cases f
  · cases awsDescribeRouteTablesByName st nm <;> simp
  · simp

/-- get_vpc_id always issues exactly one describe call. -/
theorem get_vpc_id_trace (cfg : AutoConfig) (st : Ec2State) (f : Option String) :
    (get_vpc_id cfg st f).2 = [ApiCall.describeVpcs] := by
  unfold get_vpc_id
  cases f
  · cases awsDescribeVpcsByTags st cfg.tagVpcName cfg.tagEnv <;> simp
  · simp

/-- get_internet_gateway_id always issues exactly one describe call. -/
theorem get_internet_gateway_id_trace (st : Ec2State) (f : Option String) (nm : String) :
    (get_internet_gateway_id st f nm).2 = [ApiCall.describeInternetGateways] := by
  unfold get_internet_gateway_id
  cases f
  · cases awsDescribeIgwsByName st nm <;> simp
  · simp

/-- get_subnet_info always issues exactly one describe call. -/
theorem get_subnet_info_trace (st : Ec2State) (f : Option String) (pre : String) :
    (get_subnet_info st f pre).2 = [ApiCall.describeSubnets] := by
  unfold get_subnet_info
  cases f <;> simp

/-- delete_route always issues exactly one deleteRoute call. -/
theorem delete_route_trace (st : Ec2State) (f : Option String) (a b : String) :
    (delete_route st f a b).2.2 = [ApiCall.deleteRoute a b] := by
  unfold delete_route; cases f <;> simp

/-- detach_internet_gateway always issues exactly one detach call. -/
theorem detach_internet_gateway_trace (st : Ec2State) (f : Option String) (a b : String) :
    (detach_internet_gateway st f a b).2.2 = [ApiCall.detachInternetGateway a b] := by
  unfold detach_internet_gateway; cases f <;> simp

/-- delete_internet_gateway always issues exactly one delete call. -/
theorem delete_internet_gateway_trace (st : Ec2State) (f : Option String) (a : String) :
    (delete_internet_gateway st f a).2.2 = [ApiCall.deleteInternetGateway a] := by
  unfold delete_internet_gateway; cases f <;> simp

/-- delete_route_table always issues exactly one delete call. -/
theorem delete_route_table_trace (st : Ec2State) (f : Option String) (a : String) :
    (delete_route_table st f a).2.2 = [ApiCall.deleteRouteTable a] := by
  unfold delete_route_table; cases f <;> simp

/-- delete_vpc always issues exactly one delete call. -/
theorem delete_vpc_trace (st : Ec2State) (f : Option String) (a : String) :
    (delete_vpc st f a).2.2 = [ApiCall.deleteVpc a] := by
  unfold delete_vpc; cases f <;> simp

/-- C2 (code bug): helper.route_table_exists and helper.internet_gateway_exists
return a bare boolean and map every ClientError to False, so a failed
provider query (QueryFailed) is observationally identical to a successful
query with zero matches (NotFound) — even when the resource actually exists,
as the concrete evaluation on the fully built environment shows.  This
contradicts the spec's failure policy, which the spec itself says the code
must keep distinct (vpc_exists and subnet_exists do return a separate error
component). -/
theorem exists_checks_collapse_query_failure :
    (∀ (st : Ec2State) (e nm env vid : String),
        route_table_exists st (some e) nm env vid = false) ∧
    (∀ (st : Ec2State) (e nm env : String),
        internet_gateway_exists st (some e) nm env = false) ∧
    route_table_exists builtState (some "UnauthorizedOperation")
      "AcmeLabs-Dev-RouteTable" "Dev" "vpc-0" = false ∧
    route_table_exists emptyState none "AcmeLabs-Dev-RouteTable" "Dev" "vpc-0" = false ∧
    route_table_exists builtState none "AcmeLabs-Dev-RouteTable" "Dev" "vpc-0" = true ∧
    internet_gateway_exists builtState (some "UnauthorizedOperation")
      "AcmeLabs-Dev-IGW" "Dev" = false ∧
    internet_gateway_exists emptyState none "AcmeLabs-Dev-IGW" "Dev" = false := by
  refine ⟨fun st e nm env vid => rfl, fun st e nm env => rfl, ?_, ?_, ?_, ?_, ?_⟩ <;> decide

/-- C5 (amended): the VPC, subnet, route-table and internet-gateway create
paths (Auto and Manual alike) attach both a Name and an Environment tag, but
the security-group tagging call and the key-pair create call attach a Name
tag only — no Environment tag. -/
theorem tagsAttached_name_and_environment (nm env : String) :
    hasTagKey (tagsAttached CreatePath.autoVpc nm env) "Name" = true ∧
    hasTagKey (tagsAttached CreatePath.autoVpc nm env) "Environment" = true ∧
    hasTagKey (tagsAttached CreatePath.autoSubnet nm env) "Name" = true ∧
    hasTagKey (tagsAttached CreatePath.autoSubnet nm env) "Environment" = true ∧
    hasTagKey (tagsAttached CreatePath.autoRouteTable nm env) "Name" = true ∧
    hasTagKey (tagsAttached CreatePath.autoRouteTable nm env) "Environment" = true ∧
    hasTagKey (tagsAttached CreatePath.autoInternetGateway nm env) "Name" = true ∧
    hasTagKey (tagsAttached CreatePath.autoInternetGateway nm env) "Environment" = true ∧
    hasTagKey (tagsAttached CreatePath.manualVpc nm env) "Name" = true ∧
    hasTagKey (tagsAttached CreatePath.manualVpc nm env) "Environment" = true ∧
    hasTagKey (tagsAttached CreatePath.manualSubnet nm env) "Name" = true ∧
    hasTagKey (tagsAttached CreatePath.manualSubnet nm env) "Environment" = true ∧
    hasTagKey (tagsAttached CreatePath.manualRouteTable nm env) "Name" = true ∧
    hasTagKey (tagsAttached CreatePath.manualRouteTable nm env) "Environment" = true ∧
    hasTagKey (tagsAttached CreatePath.manualInternetGateway nm env) "Name" = true ∧
    hasTagKey (tagsAttached CreatePath.manualInternetGateway nm env) "Environment" = true ∧
    hasTagKey (tagsAttached CreatePath.securityGroup nm env) "Name" = true ∧
    hasTagKey (tagsAttached CreatePath.keyPair nm env) "Name" = true := by
  simp [tagsAttached, hasTagKey]

/-- C5 (counterexample to the claim as stated): neither the security-group
tagging call nor the key-pair create call attaches an Environment tag. -/
theorem securityGroup_keyPair_missing_environment_tag :
    hasTagKey (tagsAttached CreatePath.securityGroup "AcmeLabs-SG" "Dev") "Environment" = false ∧
    hasTagKey (tagsAttached CreatePath.keyPair "MyKey" "Dev") "Environment" = false := by
  decide

/-- C10: typing exactly "no" at any of the four security-group prompts or at
the key-pair search prompt produces the same outcome as exhausting all three
retries with empty input: the script exits (or reports no valid input)
instead of using "no" as the supplied value. -/
theorem sentinel_no_equals_retry_exhaustion (rest : List String)
    (pages : List (List KeyPairEntry)) :
    sg_main_prompts ("no" :: rest) = PromptOutcome.exitScript ∧
    sg_main_prompts ("" :: "" :: "" :: rest) = PromptOutcome.exitScript ∧
    sg_main_prompts ("no" :: rest) = sg_main_prompts ("" :: "" :: "" :: rest) ∧
    sg_main_prompts ("G" :: "no" :: rest) = PromptOutcome.exitScript ∧
    sg_main_prompts ("G" :: "" :: "" :: "" :: rest) = PromptOutcome.exitScript ∧
    sg_main_prompts ("G" :: "D" :: "no" :: rest) = PromptOutcome.exitScript ∧
    sg_main_prompts ("G" :: "D" :: "V" :: "no" :: rest) = PromptOutcome.exitScript ∧
    sg_main_prompts ("G" :: "D" :: "V" :: "" :: "" :: "" :: rest) = PromptOutcome.exitScript ∧
    ec2_list_key_pairs_main pages ("no" :: rest) = ListKpResult.noValidInput ∧
    ec2_list_key_pairs_main pages ("" :: "" :: "" :: rest) = ListKpResult.noValidInput ∧
    ec2_list_key_pairs_main pages ("no" :: rest) =
      ec2_list_key_pairs_main pages ("" :: "" :: "" :: rest) := by
  refine ⟨rfl, rfl, rfl, rfl, rfl, rfl, rfl, rfl, rfl, rfl, rfl⟩

/-- The first run of the VPC creator on a state. -/
def c1FirstRun (cfg : AutoConfig) (st : Ec2State) : VpcOpOutput × Ec2State × List ApiCall :=
  create_vpc_operation cfg none none st

/-- A second run of the VPC creator on the state the first run left. -/
def c1SecondRun (cfg : AutoConfig) (st : Ec2State) : VpcOpOutput × Ec2State × List ApiCall :=
  create_vpc_operation cfg none none (c1FirstRun cfg st).2.1

/-- A freshly created VPC matches the very filters vpc_exists queries. -/
theorem awsCreateVpc_matches (st : Ec2State) (cidr nm env : String)
    (h : awsDescribeVpcsFiltered st cidr nm env = []) :
    awsDescribeVpcsFiltered (awsCreateVpc st cidr nm env).2 cidr nm env =
      [(awsCreateVpc st cidr nm env).1] := by
  unfold awsDescribeVpcsFiltered at h ⊢
  unfold awsCreateVpc
  simp only [List.filter_append, h, List.nil_append]
  simp [hasTag]

/-- C1 (amended): starting from a store with no matching VPC, the first run
issues one describe and exactly one create call and reports the fresh
provider-assigned ID; exactly one matching VPC then exists; the second run
issues only the describe (no creation request), leaves the store unchanged,
and reports existence through the Found branch — which prints the configured
Name, Environment and CIDR block, not the existing VPC's ID. -/
theorem create_vpc_operation_idempotent (cfg : AutoConfig) (st : Ec2State)
    (h : awsDescribeVpcsFiltered st cfg.cidrBlock cfg.tagVpcName cfg.tagEnv = []) :
    (c1FirstRun cfg st).1 = VpcOpOutput.vpcDetails (freshVpcId st) cfg.tagVpcName ∧
    (c1FirstRun cfg st).2.2 =
      [ApiCall.describeVpcs, ApiCall.createVpc cfg.cidrBlock cfg.tagVpcName cfg.tagEnv] ∧
    (c1FirstRun cfg st).2.1.vpcs.length = st.vpcs.length + 1 ∧
    (awsDescribeVpcsFiltered (c1FirstRun cfg st).2.1
        cfg.cidrBlock cfg.tagVpcName cfg.tagEnv).length = 1 ∧
    (c1SecondRun cfg st).1 = VpcOpOutput.vpcExistsMsg cfg.tagVpcName cfg.tagEnv cfg.cidrBlock ∧
    (c1SecondRun cfg st).2.1 = (c1FirstRun cfg st).2.1 ∧
    (c1SecondRun cfg st).2.2 = [ApiCall.describeVpcs] := by
  have hlen0 : (awsDescribeVpcsFiltered st cfg.cidrBlock cfg.tagVpcName cfg.tagEnv).length = 0 := by
    rw [h]; rfl
  have hfr : c1FirstRun cfg st =
      (VpcOpOutput.vpcDetails (freshVpcId st) cfg.tagVpcName,
        (awsCreateVpc st cfg.cidrBlock cfg.tagVpcName cfg.tagEnv).2,
        [ApiCall.describeVpcs, ApiCall.createVpc cfg.cidrBlock cfg.tagVpcName cfg.tagEnv]) := by
    unfold c1FirstRun create_vpc_operation vpc_exists create_vpc
    simp [hlen0, awsCreateVpc, freshVpcId]
  have hmatch := awsCreateVpc_matches st cfg.cidrBlock cfg.tagVpcName cfg.tagEnv h
  have hsr : c1SecondRun cfg st =
      (VpcOpOutput.vpcExistsMsg cfg.tagVpcName cfg.tagEnv cfg.cidrBlock,
        (awsCreateVpc st cfg.cidrBlock cfg.tagVpcName cfg.tagEnv).2,
        [ApiCall.describeVpcs]) := by
    unfold c1SecondRun
    rw [hfr]
    unfold create_vpc_operation vpc_exists
    simp [hmatch]
  refine ⟨by rw [hfr], by rw [hfr], ?_, ?_, by rw [hsr], by rw [hsr, hfr], by rw [hsr]⟩
  · rw [hfr]
    simp [awsCreateVpc]
  · rw [hfr, hmatch]
    rfl

/-- C1 witness: the concrete AcmeLabs-Dev configuration against an initially
empty provider satisfies the no-matching-VPC hypothesis, and the conclusion
follows by the theorem. -/
theorem create_vpc_operation_idempotent_witness :
    awsDescribeVpcsFiltered emptyState cfg0.cidrBlock cfg0.tagVpcName cfg0.tagEnv = [] ∧
    ((c1FirstRun cfg0 emptyState).1 =
        VpcOpOutput.vpcDetails (freshVpcId emptyState) cfg0.tagVpcName ∧
      (c1FirstRun cfg0 emptyState).2.2 =
        [ApiCall.describeVpcs,
          ApiCall.createVpc cfg0.cidrBlock cfg0.tagVpcName cfg0.tagEnv] ∧
      (c1FirstRun cfg0 emptyState).2.1.vpcs.length = emptyState.vpcs.length + 1 ∧
      (awsDescribeVpcsFiltered (c1FirstRun cfg0 emptyState).2.1
          cfg0.cidrBlock cfg0.tagVpcName cfg0.tagEnv).length = 1 ∧
      (c1SecondRun cfg0 emptyState).1 =
        VpcOpOutput.vpcExistsMsg cfg0.tagVpcName cfg0.tagEnv cfg0.cidrBlock ∧
      (c1SecondRun cfg0 emptyState).2.1 = (c1FirstRun cfg0 emptyState).2.1 ∧
      (c1SecondRun cfg0 emptyState).2.2 = [ApiCall.describeVpcs]) :=
  ⟨rfl, create_vpc_operation_idempotent cfg0 emptyState rfl⟩

/-- C1 (counterexample to the claim as stated): the first run returns the
fresh ID vpc-0, but the second run's Found-path output carries no VPC ID at
all — the claim's "returns the same ID via the Found path" does not hold. -/
theorem second_run_reports_no_vpc_id :
    (c1FirstRun cfg0 emptyState).1 = VpcOpOutput.vpcDetails "vpc-0" "AcmeLabs-Dev" ∧
    reportedVpcId (c1SecondRun cfg0 emptyState).1 = none ∧
    (c1SecondRun cfg0 emptyState).1 =
      VpcOpOutput.vpcExistsMsg "AcmeLabs-Dev" "Dev" "10.0.0.0/16" := by
  refine ⟨rfl, rfl, rfl⟩

/-- After save_private_key_to_file, the `<name>.pem` file holds exactly the
saved key material with owner-read-only permissions 0o400. -/
theorem localFileAt_save (st : KpState) (nm key : String) :
    localFileAt (save_private_key_to_file st nm key).1 (nm ++ ".pem") =
      some ⟨nm ++ ".pem", key, 0o400⟩ := by
  have hpre : ∀ (g : LocalFile → LocalFile), (∀ f, (g f).path = f.path) →
      ∀ (l : List LocalFile),
      ((l.filter (fun f => !(f.path == nm ++ ".pem"))).map g).filter
        (fun f => f.path == nm ++ ".pem") = [] := by
    intro g hg l
    induction l with
    | nil => rfl
    | cons a l ih =>
        by_cases ha : (a.path == nm ++ ".pem") = true
        · simp [List.filter_cons, ha, ih]
        · simp [List.filter_cons, ha, hg a, ih]
  unfold save_private_key_to_file fsWrite fsChmod localFileAt
  simp only [List.map_append, List.filter_append]
  rw [hpre _ (by
    intro f
    by_cases hf : (f.path == nm ++ ".pem") = true <;> simp [hf]) st.files]
  simp

/-- C9: when the requested key-pair name is unknown to the provider but a
local `<name>.pem` file exists, the script removes that local file BEFORE
issuing the create call (the old private key is destroyed), and the file
written afterwards holds the freshly minted key material with owner-read-only
0o400 permissions. -/
theorem key_pair_create_removes_local_then_creates (st : KpState) (key_name : String)
    (h1 : key_pair_exists st none key_name = false)
    (h2 : local_key_exists st key_name = true) :
    (ec2_create_key_pair_main st none none key_name).2.1 =
      [KpEvent.describeKeyPairsCall key_name,
        KpEvent.removeLocalFile (key_name ++ ".pem"),
        KpEvent.createKeyPairCall key_name,
        KpEvent.writeFile (key_name ++ ".pem") (keyMaterialOf key_name),
        KpEvent.chmodFile (key_name ++ ".pem") 0o400] ∧
    localFileAt (ec2_create_key_pair_main st none none key_name).1 (key_name ++ ".pem") =
      some ⟨key_name ++ ".pem", keyMaterialOf key_name, 0o400⟩ := by
  unfold ec2_create_key_pair_main
  rw [h1, h2]
  unfold create_key_pair
  constructor
  · simp [save_private_key_to_file]
  · simp only [Bool.false_eq_true, if_false, if_true]
    exact localFileAt_save _ key_name (keyMaterialOf key_name)

/-- C9 witness: a provider that knows only OtherKey, a working directory that
holds a stale MyKey.pem, and a request to create MyKey. -/
theorem key_pair_create_removes_local_then_creates_witness :
    key_pair_exists ⟨["OtherKey"], [⟨"MyKey.pem", "OLD-KEY", 0o600⟩]⟩ none "MyKey" = false ∧
    local_key_exists ⟨["OtherKey"], [⟨"MyKey.pem", "OLD-KEY", 0o600⟩]⟩ "MyKey" = true ∧
    ((ec2_create_key_pair_main ⟨["OtherKey"], [⟨"MyKey.pem", "OLD-KEY", 0o600⟩]⟩
        none none "MyKey").2.1 =
      [KpEvent.describeKeyPairsCall "MyKey",
        KpEvent.removeLocalFile ("MyKey" ++ ".pem"),
        KpEvent.createKeyPairCall "MyKey",
        KpEvent.writeFile ("MyKey" ++ ".pem") (keyMaterialOf "MyKey"),
        KpEvent.chmodFile ("MyKey" ++ ".pem") 0o400] ∧
      localFileAt (ec2_create_key_pair_main ⟨["OtherKey"], [⟨"MyKey.pem", "OLD-KEY", 0o600⟩]⟩
          none none "MyKey").1 ("MyKey" ++ ".pem") =
        some ⟨"MyKey" ++ ".pem", keyMaterialOf "MyKey", 0o400⟩) :=
  ⟨by decide, by decide,
    key_pair_create_removes_local_then_creates
      ⟨["OtherKey"], [⟨"MyKey.pem", "OLD-KEY", 0o600⟩]⟩ "MyKey" (by decide) (by decide)⟩

/-- Every disassociate call the loop issues names a non-main association from
the input list; associations with Main set are never passed to the call. -/
theorem disassocLoop_calls_nonmain (f : Option String) :
    ∀ (assocs : List RtAssociation) (st : Ec2State) (n : Nat) (rem : List String)
      (aid : String),
      ApiCall.disassociateRouteTable aid ∈ (disassocLoop f st assocs n rem).2.2 →
      ∃ a ∈ assocs, a.main = false ∧ a.associationId = aid := by
  intro assocs
  induction assocs with
  | nil =>
      intro st n rem aid h
      simp [disassocLoop] at h
  | cons a rest ih =>
      intro st n rem aid h
      simp only [disassocLoop] at h
      by_cases hm : a.main = true
      · rw [if_neg (by simp [hm])] at h
        obtain ⟨b, hb, hprop⟩ := ih st n rem aid h
        exact ⟨b, List.mem_cons_of_mem _ hb, hprop⟩
      · rw [if_pos (by simp [hm])] at h
        cases f with
        | some e =>
            simp at h
            exact ⟨a, List.mem_cons_self a rest, by simpa using hm, h.symm⟩
        | none =>
            simp at h
            rcases h with h | h
            · exact ⟨a, List.mem_cons_self a rest, by simpa using hm, h.symm⟩
            · obtain ⟨b, hb, hprop⟩ :=
                ih (awsDisassociate st a.associationId) (n + 1) (rem ++ [a.subnetId]) aid h
              exact ⟨b, List.mem_cons_of_mem _ hb, hprop⟩

/-- The trace of the disassociation helper is the reads alone (when the route
table is not resolved or the describe fails) or the reads followed by the
loop's disassociate calls over the associations of a route table of the
store. -/
theorem disassociate_trace_shape (st : Ec2State) (flt : Faults) (tag : String) :
    (disassociate_subnets_from_route_table st flt tag).2.2 = [ApiCall.describeRouteTables] ∨
    (disassociate_subnets_from_route_table st flt tag).2.2 =
      [ApiCall.describeRouteTables, ApiCall.describeRouteTables] ∨
    ∃ rt, rt ∈ st.routeTables ∧
      (disassociate_subnets_from_route_table st flt tag).2.2 =
        ApiCall.describeRouteTables :: ApiCall.describeRouteTables ::
          (disassocLoop flt.fDisassociateRouteTable st rt.associations 0 []).2.2 := by
  unfold disassociate_subnets_from_route_table
  rcases hg : get_route_table_id st flt.fDescribeRouteTables tag with ⟨rid, t1⟩
  have ht1 : t1 = [ApiCall.describeRouteTables] := by
    have := get_route_table_id_trace st flt.fDescribeRouteTables tag
    rw [hg] at this; exact this
  simp only [hg]
  subst ht1
  split
  · left; rfl
  · split
    · right; left; rfl
    · split
      · right; left; rfl
      · rename_i rt hrt
        right; right
        refine ⟨rt, ?_, ?_⟩
        · have hm : rt ∈ st.routeTables.filter
              (fun x => x.routeTableId == rid) := by
            have := hrt
            exact List.mem_of_mem_head? (by rw [this]; simp)
          exact (List.mem_filter.1 hm).1
        · rcases hd : disassocLoop flt.fDisassociateRouteTable st rt.associations 0 []
            with ⟨r, st2, t2⟩
          rcases r with msg | ⟨n, removed⟩
          · simp [hd]
          · simp only [hd]
            split <;> simp

/-- C7: for every run of the subnet-disassociation helper, under any fault
pattern, every disassociate_route_table call it issues names an association
whose Main flag is false, taken from a route table of the store; an
association with Main=true is never passed to the call. -/
theorem disassociate_never_removes_main (st : Ec2State) (flt : Faults)
    (tag aid : String)
    (h : ApiCall.disassociateRouteTable aid ∈
      (disassociate_subnets_from_route_table st flt tag).2.2) :
    ∃ rt ∈ st.routeTables, ∃ a ∈ rt.associations,
      a.main = false ∧ a.associationId = aid := by
  rcases disassociate_trace_shape st flt tag with hs | hs | ⟨rt, hrtmem, hs⟩
  · rw [hs] at h; simp at h
  · rw [hs] at h; simp at h
  · rw [hs] at h
    simp only [List.mem_cons] at h
    rcases h with h | h | h
    · exact absurd h (by simp)
    · exact absurd h (by simp)
    · obtain ⟨a, ha, hprop⟩ :=
        disassocLoop_calls_nonmain flt.fDisassociateRouteTable rt.associations st 0 [] aid h
      exact ⟨rt, hrtmem, a, ha, hprop⟩

/-- C7 witness: on the fully built environment, the issued disassociate call
for rtbassoc-1 corresponds to a non-main association of the store. -/
theorem disassociate_never_removes_main_witness :
    ApiCall.disassociateRouteTable "rtbassoc-1" ∈
      (disassociate_subnets_from_route_table builtState noFaults
        "AcmeLabs-Dev-RouteTable").2.2 ∧
    ∃ rt ∈ builtState.routeTables, ∃ a ∈ rt.associations,
      a.main = false ∧ a.associationId = "rtbassoc-1" :=
  ⟨by decide,
    disassociate_never_removes_main builtState noFaults "AcmeLabs-Dev-RouteTable"
      "rtbassoc-1" (by decide)⟩

/-- The pagination loop, started at page i, enumerates exactly pages
i, i+1, ..., in that order, and returns the matching entries of those pages
in page order. -/
theorem lkpLoop_spec (pages : List (List KeyPairEntry)) (term : String) :
    ∀ (n i : Nat), pages.length - i = n → i < pages.length →
      (lkpLoop pages term i).1 =
        (((pages.drop i).join).filter (keyPairMatches term)).map formatKeyPair ∧
      (lkpLoop pages term i).2 = List.range' i (pages.length - i) := by
  intro n
  induction n with
  | zero => intro i h1 h2; omega
  | succ n ih =>
      intro i h1 h2
      rw [lkpLoop]
      by_cases hlt : i + 1 < pages.length
      · obtain ⟨ih1, ih2⟩ := ih (i + 1) (by omega) hlt
        simp only [dif_pos hlt]
        constructor
        · rw [ih1, List.getD_eq_getElem pages [] h2, List.drop_eq_getElem_cons h2,
            show (pages[i] :: List.drop (i + 1) pages).join =
              pages[i] ++ (List.drop (i + 1) pages).join from rfl,
            List.filter_append, List.map_append]
        · rw [ih2, show pages.length - i = (pages.length - (i + 1)) + 1 by omega,
            List.range'_succ]
      · simp only [dif_neg hlt]
        constructor
        · rw [List.getD_eq_getElem pages [] h2, List.drop_eq_getElem_cons h2,
            List.drop_eq_nil_of_le (by omega)]
          simp
        · rw [show pages.length - i = 1 by omega]
          rfl

/-- C6: for every non-empty paged result set, the listing loop fetches the
pages strictly sequentially (page indices 0, 1, ..., n-1, each exactly once,
following the token each page returns) and its output is exactly the
case-insensitive glob matches of the concatenation of all pages, in order —
no duplicates introduced, none dropped. -/
theorem list_key_pairs_pagination (pages : List (List KeyPairEntry)) (term : String)
    (h : pages ≠ []) :
    (list_key_pairs pages term).1 =
      ((pages.join).filter (keyPairMatches term)).map formatKeyPair ∧
    (list_key_pairs pages term).2 = List.range pages.length := by
  have h0 : 0 < pages.length := List.length_pos.2 h
  obtain ⟨h1, h2⟩ := lkpLoop_spec pages term (pages.length - 0) 0 rfl h0
  constructor
  · rw [list_key_pairs, h1]
    simp
  · rw [list_key_pairs, h2, List.range_eq_range']
    simp

/-- A simulated three-page provider result set. -/
def kpPages3 : List (List KeyPairEntry) :=
  [[⟨"Alpha", "key-1", "rsa", "f1", "t1"⟩, ⟨"beta", "key-2", "rsa", "f2", "t2"⟩],
    [⟨"ALPINE", "key-3", "rsa", "f3", "t3"⟩],
    [⟨"gamma", "key-4", "rsa", "f4", "t4"⟩, ⟨"aLpHa-2", "key-5", "rsa", "f5", "t5"⟩]]

/-- C6 witness: the three-page simulation is non-empty and is fully
enumerated with the case-insensitive glob filter applied to every page. -/
theorem list_key_pairs_pagination_witness :
    kpPages3 ≠ [] ∧
    ((list_key_pairs kpPages3 "a*").1 =
        ((kpPages3.join).filter (keyPairMatches "a*")).map formatKeyPair ∧
      (list_key_pairs kpPages3 "a*").2 = List.range kpPages3.length) :=
  ⟨by decide, list_key_pairs_pagination kpPages3 "a*" (by decide)⟩

/-- A non-empty input whose value does not parse to an in-range port is
simply consumed: the port prompt loops again with the retry budget fully
reset — such inputs never count against the bound. -/
theorem prompt_port_skip (s : String) (rest : List String)
    (hs : (s == "") = false)
    (hp : ∀ p : Int, pyInt s = some p → ¬(0 ≤ p ∧ p ≤ 65535)) :
    prompt_port (s :: rest) = prompt_port rest := by
  have h1 : prompt_with_retries 3 (s :: rest) = some (s, rest) := by
    have h0 : prompt_with_retries 3 (s :: rest)
        = if s == "" then prompt_with_retries 2 rest else some (s, rest) := rfl
    rw [h0, hs]
    rfl
  rw [prompt_port.eq_def, h1]
  cases hpi : pyInt s with
  | none =>
      simp only []
      rw [hpi]
  | some p =>
      simp only []
      rw [hpi]
      show (if 0 ≤ p ∧ p ≤ 65535 then some (p.toNat, rest) else prompt_port rest)
          = prompt_port rest
      rw [if_neg (hp p hpi)]

/-- C8 (code bug): the port prompt is not bounded by the 3-retry budget.
Exhausting the three retries with empty inputs does not abort — the sentinel
"no" fails `int()` and the loop silently starts over, accepting a fourth
input (so the caller's None-check for retry exhaustion is unreachable); and
any number of out-of-range inputs is consumed without ever counting as a
retry, so no bound on the number of attempts exists at all. -/
theorem prompt_port_ignores_retry_bound :
    prompt_port ["", "", "", "22"] = some (22, []) ∧
    ∀ n : Nat, prompt_port (List.replicate n "70000" ++ ["22"]) = some (22, []) := by
  have h22 : prompt_port ["22"] = some (22, []) := by
    rw [prompt_port.eq_def]
    rfl
  constructor
  · have hnof : prompt_port ["", "", "", "22"] = prompt_port ["22"] := by
      rw [prompt_port.eq_def]
      rw [show prompt_with_retries 3 ["", "", "", "22"] = some ("no", ["22"]) from rfl]
      rfl
    exact hnof.trans h22
  · intro n
    induction n with
    | zero => simpa using h22
    | succ n ih =>
        rw [List.replicate_succ, List.cons_append,
          prompt_port_skip "70000" _ rfl (by
            intro p hp
            have : p = 70000 := by
              have h70 : pyInt "70000" = some 70000 := rfl
              rw [h70] at hp
              exact (Option.some_injective _ hp).symm
            omega)]
        exact ih

/-- A call a teardown step may issue: never a creation-side call, and its
mutation kind (if it mutates at all) is the step's own kind. -/
def StepOk (k : MutKind) (c : ApiCall) : Prop :=
  isCreationCall c = false ∧ (mutKindOf c = none ∨ mutKindOf c = some k)

/-- Calls of the route-deletion step. -/
theorem delete_route_operation_ok (cfg : AutoConfig) (flt : Faults) (st : Ec2State) :
    ∀ c ∈ (delete_route_operation cfg flt st).2.2, StepOk MutKind.route c := by
  intro c hc
  unfold delete_route_operation at hc
  rcases hg : get_route_table_id st flt.fDescribeRouteTables cfg.tagRtb with ⟨rid, t1⟩
  simp only [hg] at hc
  have ht1 : t1 = [ApiCall.describeRouteTables] := by
    have := get_route_table_id_trace st flt.fDescribeRouteTables cfg.tagRtb
    rw [hg] at this; exact this
  subst ht1
  split at hc
  · simp at hc
    subst hc
    exact ⟨rfl, Or.inl rfl⟩
  · rcases hd : delete_route st flt.fDeleteRoute rid cfg.destCidrBlock with ⟨msg, st2, t2⟩
    simp only [hd] at hc
    have ht2 : t2 = [ApiCall.deleteRoute rid cfg.destCidrBlock] := by
      have := delete_route_trace st flt.fDeleteRoute rid cfg.destCidrBlock
      rw [hd] at this; exact this
    subst ht2
    simp at hc
    rcases hc with hc | hc <;> subst hc
    · exact ⟨rfl, Or.inl rfl⟩
    · exact ⟨rfl, Or.inr rfl⟩

/-- Calls of the gateway-detachment step. -/
theorem detach_internet_gateway_operation_ok (cfg : AutoConfig) (flt : Faults)
    (st : Ec2State) :
    ∀ c ∈ (detach_internet_gateway_operation cfg flt st).2.2, StepOk MutKind.detach c := by
  intro c hc
  unfold detach_internet_gateway_operation at hc
  rcases hg : get_vpc_id cfg st flt.fDescribeVpcs with ⟨⟨vid, e1⟩, t1⟩
  simp only [hg] at hc
  have ht1 : t1 = [ApiCall.describeVpcs] := by
    have := get_vpc_id_trace cfg st flt.fDescribeVpcs
    rw [hg] at this; exact this
  subst ht1
  cases e1 with
  | some e =>
      simp at hc
      subst hc
      exact ⟨rfl, Or.inl rfl⟩
  | none =>
      rcases hg2 : get_internet_gateway_id st flt.fDescribeInternetGateways cfg.tagIgwName
        with ⟨⟨gid, e2⟩, t2⟩
      simp only [hg2] at hc
      have ht2 : t2 = [ApiCall.describeInternetGateways] := by
        have := get_internet_gateway_id_trace st flt.fDescribeInternetGateways cfg.tagIgwName
        rw [hg2] at this; exact this
      subst ht2
      cases e2 with
      | some e =>
          simp at hc
          rcases hc with hc | hc <;> subst hc
          · exact ⟨rfl, Or.inl rfl⟩
          · exact ⟨rfl, Or.inl rfl⟩
      | none =>
          rcases hg3 : detach_internet_gateway st flt.fDetachInternetGateway
            (gid.getD "") (vid.getD "") with ⟨msg, st2, t3⟩
          simp only [hg3] at hc
          have ht3 : t3 = [ApiCall.detachInternetGateway (gid.getD "") (vid.getD "")] := by
            have := detach_internet_gateway_trace st flt.fDetachInternetGateway
              (gid.getD "") (vid.getD "")
            rw [hg3] at this; exact this
          subst ht3
          simp at hc
          rcases hc with hc | hc | hc <;> subst hc
          · exact ⟨rfl, Or.inl rfl⟩
          · exact ⟨rfl, Or.inl rfl⟩
          · exact ⟨rfl, Or.inr rfl⟩

/-- Calls of the gateway-deletion step. -/
theorem delete_internet_gateway_operation_ok (cfg : AutoConfig) (flt : Faults)
    (st : Ec2State) :
    ∀ c ∈ (delete_internet_gateway_operation cfg flt st).2.2, StepOk MutKind.igw c := by
  intro c hc
  unfold delete_internet_gateway_operation at hc
  rcases hg : get_internet_gateway_id st flt.fDescribeInternetGateways cfg.tagIgwName
    with ⟨⟨gid, e1⟩, t1⟩
  simp only [hg] at hc
  have ht1 : t1 = [ApiCall.describeInternetGateways] := by
    have := get_internet_gateway_id_trace st flt.fDescribeInternetGateways cfg.tagIgwName
    rw [hg] at this; exact this
  subst ht1
  cases e1 with
  | some e =>
      simp at hc
      subst hc
      exact ⟨rfl, Or.inl rfl⟩
  | none =>
      rcases hd : delete_internet_gateway st flt.fDeleteInternetGateway (gid.getD "")
        with ⟨msg, st2, t2⟩
      simp only [hd] at hc
      have ht2 : t2 = [ApiCall.deleteInternetGateway (gid.getD "")] := by
        have := delete_internet_gateway_trace st flt.fDeleteInternetGateway (gid.getD "")
        rw [hd] at this; exact this
      subst ht2
      simp at hc
      rcases hc with hc | hc <;> subst hc
      · exact ⟨rfl, Or.inl rfl⟩
      · exact ⟨rfl, Or.inr rfl⟩

/-- Calls of the disassociation loop. -/
theorem disassocLoop_ok (f : Option String) :
    ∀ (assocs : List RtAssociation) (st : Ec2State) (n : Nat) (rem : List String),
      ∀ c ∈ (disassocLoop f st assocs n rem).2.2, StepOk MutKind.disassoc c := by
  intro assocs
  induction assocs with
  | nil =>
      intro st n rem c hc
      simp [disassocLoop] at hc
  | cons a rest ih =>
      intro st n rem c hc
      simp only [disassocLoop] at hc
      by_cases hm : a.main = true
      · rw [if_neg (by simp [hm])] at hc
        exact ih st n rem c hc
      · rw [if_pos (by simp [hm])] at hc
        cases f with
        | some e =>
            simp at hc
            subst hc
            exact ⟨rfl, Or.inr rfl⟩
        | none =>
            simp at hc
            rcases hc with hc | hc
            · subst hc
              exact ⟨rfl, Or.inr rfl⟩
            · exact ih (awsDisassociate st a.associationId) (n + 1) (rem ++ [a.subnetId]) c hc

/-- Calls of the subnet-disassociation step. -/
theorem disassociate_subnets_operation_ok (cfg : AutoConfig) (flt : Faults)
    (st : Ec2State) :
    ∀ c ∈ (disassociate_subnets_operation cfg flt st).2.2, StepOk MutKind.disassoc c := by
  intro c hc
  unfold disassociate_subnets_operation at hc
  rcases hd : disassociate_subnets_from_route_table st flt cfg.tagRtb with ⟨msg, st2, tr⟩
  simp only [hd] at hc
  rcases disassociate_trace_shape st flt cfg.tagRtb with hs | hs | ⟨rt, hmem, hs⟩ <;>
    rw [hd] at hs <;> simp only [] at hs <;> rw [hs] at hc
  · simp at hc
    subst hc
    exact ⟨rfl, Or.inl rfl⟩
  · simp at hc
    subst hc
    exact ⟨rfl, Or.inl rfl⟩
  · simp only [List.mem_cons] at hc
    rcases hc with hc | hc | hc
    · subst hc; exact ⟨rfl, Or.inl rfl⟩
    · subst hc; exact ⟨rfl, Or.inl rfl⟩
    · exact disassocLoop_ok flt.fDisassociateRouteTable rt.associations st 0 [] c hc

/-- Calls of the route-table-deletion step. -/
theorem delete_route_table_operation_ok (cfg : AutoConfig) (flt : Faults)
    (st : Ec2State) :
    ∀ c ∈ (delete_route_table_operation cfg flt st).2.2, StepOk MutKind.rtb c := by
  intro c hc
  unfold delete_route_table_operation at hc
  rcases hg : get_route_table_id st flt.fDescribeRouteTables cfg.tagRtb with ⟨rid, t1⟩
  simp only [hg] at hc
  have ht1 : t1 = [ApiCall.describeRouteTables] := by
    have := get_route_table_id_trace st flt.fDescribeRouteTables cfg.tagRtb
    rw [hg] at this; exact this
  subst ht1
  split at hc
  · simp at hc
    subst hc
    exact ⟨rfl, Or.inl rfl⟩
  · rcases hd : delete_route_table st flt.fDeleteRouteTable rid with ⟨msg, st2, t2⟩
    simp only [hd] at hc
    have ht2 : t2 = [ApiCall.deleteRouteTable rid] := by
      have := delete_route_table_trace st flt.fDeleteRouteTable rid
      rw [hd] at this; exact this
    subst ht2
    simp at hc
    rcases hc with hc | hc <;> subst hc
    · exact ⟨rfl, Or.inl rfl⟩
    · exact ⟨rfl, Or.inr rfl⟩

/-- Calls of the subnet-deletion loop. -/
theorem deleteSubnetsLoop_ok (f : Option String) :
    ∀ (ids : List String) (st : Ec2State),
      ∀ c ∈ (deleteSubnetsLoop f st ids).2.2, StepOk MutKind.subnet c := by
  intro ids
  induction ids with
  | nil =>
      intro st c hc
      simp [deleteSubnetsLoop] at hc
  | cons i rest ih =>
      intro st c hc
      simp only [deleteSubnetsLoop] at hc
      cases f with
      | some e =>
          simp at hc
          rcases hc with hc | hc
          · subst hc
            exact ⟨rfl, Or.inr rfl⟩
          · exact ih st c hc
      | none =>
          simp at hc
          rcases hc with hc | hc
          · subst hc
            exact ⟨rfl, Or.inr rfl⟩
          · exact ih (awsDeleteSubnet st i) c hc

/-- Calls of the subnet-deletion step. -/
theorem delete_subnets_operation_ok (cfg : AutoConfig) (flt : Faults)
    (st : Ec2State) :
    ∀ c ∈ (delete_subnets_operation cfg flt st).2.2, StepOk MutKind.subnet c := by
  intro c hc
  unfold delete_subnets_operation at hc
  rcases hg : get_subnet_info st flt.fDescribeSubnets cfg.tagSubnet with ⟨⟨det, idsE⟩, t1⟩
  simp only [hg] at hc
  have ht1 : t1 = [ApiCall.describeSubnets] := by
    have := get_subnet_info_trace st flt.fDescribeSubnets cfg.tagSubnet
    rw [hg] at this; exact this
  subst ht1
  rcases hd : deleteSubnetsLoop flt.fDeleteSubnet st (pyIterIds idsE) with ⟨msgs2, st2, t2⟩
  simp only [hd] at hc
  simp only [List.mem_append, List.mem_singleton] at hc
  rcases hc with hc | hc
  · subst hc
    exact ⟨rfl, Or.inl rfl⟩
  · have := deleteSubnetsLoop_ok flt.fDeleteSubnet (pyIterIds idsE) st c
    rw [hd] at this
    exact this hc

/-- Calls of the VPC-deletion step. -/
theorem delete_vpc_operation_ok (cfg : AutoConfig) (flt : Faults) (st : Ec2State) :
    ∀ c ∈ (delete_vpc_operation cfg flt st).2.2, StepOk MutKind.vpc c := by
  intro c hc
  unfold delete_vpc_operation at hc
  rcases hg : get_vpc_id cfg st flt.fDescribeVpcs with ⟨⟨vid, e1⟩, t1⟩
  simp only [hg] at hc
  have ht1 : t1 = [ApiCall.describeVpcs] := by
    have := get_vpc_id_trace cfg st flt.fDescribeVpcs
    rw [hg] at this; exact this
  subst ht1
  cases e1 with
  | some e =>
      simp at hc
      subst hc
      exact ⟨rfl, Or.inl rfl⟩
  | none =>
      cases vid with
      | none =>
          simp at hc
          subst hc
          exact ⟨rfl, Or.inl rfl⟩
      | some v =>
          rcases hd : delete_vpc st flt.fDeleteVpc v with ⟨r, st2, t2⟩
          simp only [hd] at hc
          have ht2 : t2 = [ApiCall.deleteVpc v] := by
            have := delete_vpc_trace st flt.fDeleteVpc v
            rw [hd] at this; exact this
          subst ht2
          rcases r with msg | code <;> simp at hc <;> rcases hc with hc | hc <;> subst hc
          · exact ⟨rfl, Or.inl rfl⟩
          · exact ⟨rfl, Or.inr rfl⟩
          · exact ⟨rfl, Or.inl rfl⟩
          · exact ⟨rfl, Or.inr rfl⟩

/-- mutKinds distributes over trace concatenation. -/
theorem mutKinds_append (a b : List ApiCall) :
    mutKinds (a ++ b) = mutKinds a ++ mutKinds b :=
  List.filterMap_append a b mutKindOf

/-- Every mutation kind occurring in a step's trace is the step's own kind. -/
theorem mutKinds_all_eq {k : MutKind} {tr : List ApiCall}
    (h : ∀ c ∈ tr, StepOk k c) : ∀ m ∈ mutKinds tr, m = k := by
  intro m hm
  simp only [mutKinds, List.mem_filterMap] at hm
  obtain ⟨c, hc, hkc⟩ := hm
  rcases (h c hc).2 with h0 | h0
  · rw [h0] at hkc; cases hkc
  · rw [h0] at hkc
    exact (Option.some_injective _ hkc).symm

/-- A list on which a Nat measure is constant is sorted by that measure. -/
theorem pairwise_le_of_const (f : MutKind → Nat) (k : Nat) :
    ∀ (l : List MutKind), (∀ x ∈ l, f x = k) →
      l.Pairwise (fun a b => f a ≤ f b) := by
  intro l
  induction l with
  | nil => intro _; exact List.Pairwise.nil
  | cons a l ih =>
      intro h
      constructor
      · intro b hb
        rw [h a (List.mem_cons_self a l), h b (List.mem_cons_of_mem a hb)]
      · exact ih (fun x hx => h x (List.mem_cons_of_mem a hx))

/-- Concatenating a list bounded above by n with one bounded below by n
preserves sortedness by the measure. -/
theorem pairwise_le_append (f : MutKind → Nat) {l1 l2 : List MutKind} (n : Nat)
    (h1 : ∀ x ∈ l1, f x ≤ n) (h2 : ∀ x ∈ l2, n ≤ f x)
    (p1 : l1.Pairwise (fun a b => f a ≤ f b))
    (p2 : l2.Pairwise (fun a b => f a ≤ f b)) :
    (l1 ++ l2).Pairwise (fun a b => f a ≤ f b) := by
  rw [List.pairwise_append]
  exact ⟨p1, p2, fun a ha b hb => le_trans (h1 a ha) (h2 b hb)⟩

/-- The teardown trace splits into the seven steps' traces, in program order,
and each step issues only reads and its own mutation kind. -/
theorem mainDelete_trace_decomp (cfg : AutoConfig) (flt : Faults) (st : Ec2State) :
    ∃ t1 t2 t3 t4 t5 t6 t7 : List ApiCall,
      (mainDelete cfg flt st).2.2 = t1 ++ t2 ++ t3 ++ t4 ++ t5 ++ t6 ++ t7 ∧
      (∀ c ∈ t1, StepOk MutKind.route c) ∧
      (∀ c ∈ t2, StepOk MutKind.detach c) ∧
      (∀ c ∈ t3, StepOk MutKind.igw c) ∧
      (∀ c ∈ t4, StepOk MutKind.disassoc c) ∧
      (∀ c ∈ t5, StepOk MutKind.rtb c) ∧
      (∀ c ∈ t6, StepOk MutKind.subnet c) ∧
      (∀ c ∈ t7, StepOk MutKind.vpc c) := by
  unfold mainDelete
  rcases h1 : delete_route_operation cfg flt st with ⟨o1, st1, t1⟩
  rcases h2 : detach_internet_gateway_operation cfg flt st1 with ⟨o2, st2, t2⟩
  rcases h3 : delete_internet_gateway_operation cfg flt st2 with ⟨o3, st3, t3⟩
  rcases h4 : disassociate_subnets_operation cfg flt st3 with ⟨o4, st4, t4⟩
  rcases h5 : delete_route_table_operation cfg flt st4 with ⟨o5, st5, t5⟩
  rcases h6 : delete_subnets_operation cfg flt st5 with ⟨o6, st6, t6⟩
  rcases h7 : delete_vpc_operation cfg flt st6 with ⟨o7, st7, t7⟩
  refine ⟨t1, t2, t3, t4, t5, t6, t7, ?_, ?_, ?_, ?_, ?_, ?_, ?_, ?_⟩
  · simp only [h1, h2, h3, h4, h5, h6, h7]
  · intro c hc; exact delete_route_operation_ok cfg flt st c (by rw [h1]; exact hc)
  · intro c hc
    exact detach_internet_gateway_operation_ok cfg flt st1 c (by rw [h2]; exact hc)
  · intro c hc
    exact delete_internet_gateway_operation_ok cfg flt st2 c (by rw [h3]; exact hc)
  · intro c hc; exact disassociate_subnets_operation_ok cfg flt st3 c (by rw [h4]; exact hc)
  · intro c hc; exact delete_route_table_operation_ok cfg flt st4 c (by rw [h5]; exact hc)
  · intro c hc; exact delete_subnets_operation_ok cfg flt st5 c (by rw [h6]; exact hc)
  · intro c hc; exact delete_vpc_operation_ok cfg flt st6 c (by rw [h7]; exact hc)

/-- C3 (amended): every invocation of the teardown branch, on any store and
under any fault pattern, issues its provider mutations in the program's fixed
order: delete route, then detach the internet gateway, then delete the
internet gateway, then disassociate the non-main route-table associations,
then delete the route table, then delete the subnets, then delete the VPC. -/
theorem mainDelete_mutations_in_code_order (cfg : AutoConfig) (flt : Faults)
    (st : Ec2State) :
    List.Pairwise (fun a b => codeKindIdx a ≤ codeKindIdx b)
      (mutKinds (mainDelete cfg flt st).2.2) := by
  obtain ⟨t1, t2, t3, t4, t5, t6, t7, hteq, H1, H2, H3, H4, H5, H6, H7⟩ :=
    mainDelete_trace_decomp cfg flt st
  rw [hteq]
  simp only [mutKinds_append]
  have K1 := mutKinds_all_eq H1
  have K2 := mutKinds_all_eq H2
  have K3 := mutKinds_all_eq H3
  have K4 := mutKinds_all_eq H4
  have K5 := mutKinds_all_eq H5
  have K6 := mutKinds_all_eq H6
  have K7 := mutKinds_all_eq H7
  have P1 := pairwise_le_of_const codeKindIdx 0 _ (fun x hx => by rw [K1 x hx]; rfl)
  have P2 := pairwise_le_of_const codeKindIdx 1 _ (fun x hx => by rw [K2 x hx]; rfl)
  have P3 := pairwise_le_of_const codeKindIdx 2 _ (fun x hx => by rw [K3 x hx]; rfl)
  have P4 := pairwise_le_of_const codeKindIdx 3 _ (fun x hx => by rw [K4 x hx]; rfl)
  have P5 := pairwise_le_of_const codeKindIdx 4 _ (fun x hx => by rw [K5 x hx]; rfl)
  have P6 := pairwise_le_of_const codeKindIdx 5 _ (fun x hx => by rw [K6 x hx]; rfl)
  have P7 := pairwise_le_of_const codeKindIdx 6 _ (fun x hx => by rw [K7 x hx]; rfl)
  have bapp : ∀ (l1 l2 : List MutKind) (n : Nat),
      (∀ x ∈ l1, n ≤ codeKindIdx x) → (∀ x ∈ l2, n ≤ codeKindIdx x) →
      ∀ x ∈ l1 ++ l2, n ≤ codeKindIdx x := by
    intro l1 l2 n a b x hx
    rcases List.mem_append.1 hx with hx | hx
    · exact a x hx
    · exact b x hx
  have L7 : ∀ x ∈ mutKinds t7, 6 ≤ codeKindIdx x := fun x hx => by rw [K7 x hx]; decide
  have P67 := pairwise_le_append codeKindIdx 6
    (fun x hx => by rw [K6 x hx]; decide) L7 P6 P7
  have L67 := bapp _ _ 5 (fun x hx => by rw [K6 x hx]; decide)
    (fun x hx => le_trans (by decide) (L7 x hx))
  have P567 := pairwise_le_append codeKindIdx 5
    (fun x hx => by rw [K5 x hx]; decide) L67 P5 P67
  have L567 := bapp _ _ 4 (fun x hx => by rw [K5 x hx]; decide)
    (fun x hx => le_trans (by decide) (L67 x hx))
  have P4567 := pairwise_le_append codeKindIdx 4
    (fun x hx => by rw [K4 x hx]; decide) L567 P4 P567
  have L4567 := bapp _ _ 3 (fun x hx => by rw [K4 x hx]; decide)
    (fun x hx => le_trans (by decide) (L567 x hx))
  have P34567 := pairwise_le_append codeKindIdx 3
    (fun x hx => by rw [K3 x hx]; decide) L4567 P3 P4567
  have L34567 := bapp _ _ 2 (fun x hx => by rw [K3 x hx]; decide)
    (fun x hx => le_trans (by decide) (L4567 x hx))
  have P234567 := pairwise_le_append codeKindIdx 2
    (fun x hx => by rw [K2 x hx]; decide) L34567 P2 P34567
  have L234567 := bapp _ _ 1 (fun x hx => by rw [K2 x hx]; decide)
    (fun x hx => le_trans (by decide) (L34567 x hx))
  have Pall := pairwise_le_append codeKindIdx 1
    (fun x hx => by rw [K1 x hx]; decide) L234567 P1 P234567
  simpa using Pall

/-- C3 (counterexample to the claim as stated): the fault-free teardown of
the fully built environment mutates in the order route, gateway detachment,
gateway deletion, disassociations, route table, subnets, network — which
violates the claimed order (route, disassociations, route table, gateway
detachment, gateway deletion, subnets, network): the detachment comes after
the route deletion and before the disassociations, not after the route-table
deletion. -/
theorem teardown_order_differs_from_claimed :
    mutKinds (mainDelete cfg0 noFaults builtState).2.2 =
      [MutKind.route, MutKind.detach, MutKind.igw, MutKind.disassoc,
        MutKind.disassoc, MutKind.disassoc, MutKind.rtb, MutKind.subnet,
        MutKind.subnet, MutKind.subnet, MutKind.vpc] ∧
    ¬ List.Pairwise (fun a b => claimedKindIdx a ≤ claimedKindIdx b)
      (mutKinds (mainDelete cfg0 noFaults builtState).2.2) := by
  constructor
  · decide
  · decide

/-- A fault pattern in which every delete_route call raises a ClientError and
everything else succeeds. -/
def fltRouteFail : Faults :=
  ⟨none, none, none, none, some "RouteNotSupported", none, none, none, none, none, none⟩

/-- C4 (amended): a failing step is terminal only for that step — its error
is printed and no compensating rollback is ever issued (the teardown never
performs a creation-side call, under any fault pattern on any store), but the
remaining steps are still attempted: with the route deletion failing on the
fully built environment, the detach, gateway-delete, disassociate,
route-table-delete, subnet-delete and VPC-delete calls are all still issued. -/
theorem teardown_no_rollback_steps_continue :
    (∀ (cfg : AutoConfig) (flt : Faults) (st : Ec2State),
      ((mainDelete cfg flt st).2.2.filter isCreationCall) = []) ∧
    ((mainDelete cfg0 fltRouteFail builtState).1.contains
      "Client error deleting route: RouteNotSupported" = true) ∧
    ((mainDelete cfg0 fltRouteFail builtState).2.2.contains
      (ApiCall.detachInternetGateway "igw-0" "vpc-0") = true) ∧
    ((mainDelete cfg0 fltRouteFail builtState).2.2.contains
      (ApiCall.deleteInternetGateway "igw-0") = true) ∧
    ((mainDelete cfg0 fltRouteFail builtState).2.2.contains
      (ApiCall.disassociateRouteTable "rtbassoc-1") = true) ∧
    ((mainDelete cfg0 fltRouteFail builtState).2.2.contains
      (ApiCall.deleteRouteTable "rtb-0") = true) ∧
    ((mainDelete cfg0 fltRouteFail builtState).2.2.contains
      (ApiCall.deleteSubnet "subnet-1") = true) ∧
    ((mainDelete cfg0 fltRouteFail builtState).2.2.contains
      (ApiCall.deleteVpc "vpc-0") = true) := by
  refine ⟨?_, ?_, ?_, ?_, ?_, ?_, ?_, ?_⟩
  · intro cfg flt st
    rw [List.filter_eq_nil]
    intro c hc
    obtain ⟨t1, t2, t3, t4, t5, t6, t7, hteq, H1, H2, H3, H4, H5, H6, H7⟩ :=
      mainDelete_trace_decomp cfg flt st
    rw [hteq] at hc
    simp only [List.mem_append] at hc
    rcases hc with ((((((hc | hc) | hc) | hc) | hc) | hc) | hc)
    · simp [(H1 c hc).1]
    · simp [(H2 c hc).1]
    · simp [(H3 c hc).1]
    · simp [(H4 c hc).1]
    · simp [(H5 c hc).1]
    · simp [(H6 c hc).1]
    · simp [(H7 c hc).1]
  · decide
  · decide
  · decide
  · decide
  · decide
  · decide
  · decide

/-- C4 (counterexample to the claim as stated): when the first step's
provider call (delete_route) fails, the subsequent steps' provider calls ARE
still attempted — the detach call appears in the trace after the failed
route deletion, so failure of a step is not terminal for the invocation. -/
theorem teardown_failure_not_terminal :
    ((mainDelete cfg0 fltRouteFail builtState).1.contains
      "Client error deleting route: RouteNotSupported" = true) ∧
    ((mainDelete cfg0 fltRouteFail builtState).2.2.contains
      (ApiCall.deleteRoute "rtb-0" "0.0.0.0/0") = true) ∧
    ((mainDelete cfg0 fltRouteFail builtState).2.2.indexOf
        (ApiCall.deleteRoute "rtb-0" "0.0.0.0/0") <
      (mainDelete cfg0 fltRouteFail builtState).2.2.indexOf
        (ApiCall.detachInternetGateway "igw-0" "vpc-0")) ∧
    ((mainDelete cfg0 fltRouteFail builtState).2.2.contains
      (ApiCall.detachInternetGateway "igw-0" "vpc-0") = true) := by
  refine ⟨by decide, by decide, by decide, by decide⟩
